import Mathlib

/-!
Verification of the NES emulator core (nes-rs): a shallow embedding of the
PPU timing core, the PPU data port, the CPU bus decoder and the 6502 CPU
interpreter, together with theorems settling the specification claims.

Conventions of the embedding:
* Machine integers (`u8`, `u16`, `usize`) are modelled as `Nat`; wrapping
  arithmetic is written with an explicit `% 256` / `% 65536` (or a masking
  `&&&`), matching the `wrapping_*` operations of the source.  A checked
  Rust addition or subtraction (plain `+` / `-` on an integer type, which
  panics on overflow) is modelled by a bounds test returning `none` on
  overflow.
* Rust `panic!` / `unimplemented!` / out-of-bounds indexing is modelled by
  `Option`, with `none` for the aborting executions.
* Fixed-size arrays (`[u8; N]`) and `Vec<u8>` are modelled as `List Nat`
  with `Option`-returning indexing, so an out-of-range index is an error
  exactly as in the source.
-/

set_option maxRecDepth 4000

namespace NesRs

/-- Modelled from the spec: `cartridge.rs` is not under src/; the spec gives the
mirroring tag as an element of HORIZONTAL, VERTICAL, FOUR_SCREEN. -/
inductive Mirroring where
  | HORIZONTAL
  | VERTICAL
  | FOUR_SCREEN
deriving DecidableEq

/-- `ControlRegister` from `ppu_control_register.rs`: bit-packed `$2000` view. -/
structure ControlRegister where
  bits : Nat
deriving DecidableEq

/-- `ControlRegister::new`: all bits clear. -/
def ControlRegister.new : ControlRegister := { bits := 0 }

/-- `ControlRegister::vram_addr_increment`: 1 when `VRAM_ADD_INCREMENT`
(bit 2) is clear, 32 when it is set. -/
def ControlRegister.vramAddrIncrement (c : ControlRegister) : Nat :=
  if c.bits &&& 0b00000100 = 0 then 1 else 32

/-- `ControlRegister::generate_vblank_nmi`: bit 7 (`GENERATE_NMI`). -/
def ControlRegister.generateVblankNmi (c : ControlRegister) : Bool :=
  c.bits &&& 0b10000000 ≠ 0

/-- `ControlRegister::update`: replace the stored byte. -/
def ControlRegister.update (c : ControlRegister) (data : Nat) : ControlRegister :=
  { c with bits := data % 256 }

/-- Modelled from the spec: `ppu_mask_register.rs` is not under src/; a
single stored byte updated wholesale ($2001). -/
structure MaskRegister where
  bits : Nat
deriving DecidableEq

/-- Modelled from the spec: update-from-byte operation of the mask register. -/
def MaskRegister.update (r : MaskRegister) (data : Nat) : MaskRegister :=
  { r with bits := data % 256 }

/-- Modelled from the spec: `ppu_status_register.rs` is not under src/; a
bitfield with VBlank (bit 7) and sprite-0-hit (bit 6) amongst its bits. -/
structure StatusRegister where
  bits : Nat
deriving DecidableEq

/-- Modelled from the spec: set or clear the VBlank bit. -/
def StatusRegister.setVblankStatus (r : StatusRegister) (b : Bool) : StatusRegister :=
  if b then { r with bits := r.bits ||| 0b10000000 } else { r with bits := r.bits &&& 0b01111111 }

/-- Modelled from the spec: set or clear the sprite-0-hit bit. -/
def StatusRegister.setSpriteZeroHit (r : StatusRegister) (b : Bool) : StatusRegister :=
  if b then { r with bits := r.bits ||| 0b01000000 } else { r with bits := r.bits &&& 0b10111111 }

/-- Modelled from the spec: clear the VBlank bit. -/
def StatusRegister.resetVblankStatus (r : StatusRegister) : StatusRegister :=
  { r with bits := r.bits &&& 0b01111111 }

/-- Modelled from the spec: `$2002` read snapshots the current bits. -/
def StatusRegister.snapshot (r : StatusRegister) : Nat := r.bits

/-- Modelled from the spec: whether the VBlank bit is set. -/
def StatusRegister.isInVblank (r : StatusRegister) : Bool :=
  r.bits &&& 0b10000000 ≠ 0

/-- Modelled from the spec: `ppu_scroll_register.rs` is not under src/; two
8-bit components behind a shared write latch (first write horizontal,
second vertical). -/
structure ScrollRegister where
  scrollX : Nat
  scrollY : Nat
  latch : Bool
deriving DecidableEq

/-- Modelled from the spec: latch-gated `$2005` write. -/
def ScrollRegister.write (r : ScrollRegister) (data : Nat) : ScrollRegister :=
  if r.latch then { r with scrollY := data % 256, latch := false }
  else { r with scrollX := data % 256, latch := true }

/-- Modelled from the spec: `$2002` read resets the latch to the first-write
position. -/
def ScrollRegister.resetLatch (r : ScrollRegister) : ScrollRegister :=
  { r with latch := false }

/-- Modelled from the spec: `ppu_addr_register.rs` (`AddrRegister`, $2006) is
not under src/.  A 14-bit VRAM pointer accumulated by two successive writes
(high byte first) gated by a toggle latch; writes above 0x3FFF mirror into
0x0000-0x3FFF; the pointer advances by the control-selected increment,
wrapping at 0x3FFF. -/
structure AddrRegister where
  value : Nat
  hiPtr : Bool
deriving DecidableEq

/-- Modelled from the spec: fresh register, expecting the high byte first. -/
def AddrRegister.new : AddrRegister := { value := 0, hiPtr := true }

/-- Modelled from the spec: the accumulated 14-bit pointer. -/
def AddrRegister.get (r : AddrRegister) : Nat := r.value

/-- Modelled from the spec: latch-gated `$2006` write; after either write the
stored pointer is mirrored into 0x0000-0x3FFF, so two writes of (hi, lo)
leave `((hi &&& 0x3F) <<< 8) ||| lo`. -/
def AddrRegister.update (r : AddrRegister) (data : Nat) : AddrRegister :=
  if r.hiPtr then
    { value := (((data % 256) <<< 8) ||| (r.value &&& 0xFF)) &&& 0x3FFF, hiPtr := false }
  else
    { value := ((r.value &&& 0xFF00) ||| (data % 256)) &&& 0x3FFF, hiPtr := true }

/-- Modelled from the spec: advance the pointer by the increment, wrapping at
0x3FFF. -/
def AddrRegister.increment (r : AddrRegister) (inc : Nat) : AddrRegister :=
  { r with value := (r.value + inc) &&& 0x3FFF }

/-- Modelled from the spec: `$2002` read resets the latch to the
high-byte-next position. -/
def AddrRegister.resetLatch (r : AddrRegister) : AddrRegister :=
  { r with hiPtr := true }

/-- `NesPPU` state from `ppu.rs`. -/
structure NesPPU where
  mirroring : Mirroring
  ctrl : ControlRegister
  mask : MaskRegister
  status : StatusRegister
  scroll : ScrollRegister
  addr : AddrRegister
  oamAddr : Nat
  oamData : List Nat
  chrRom : List Nat
  vram : List Nat
  paletteTable : List Nat
  internalDataBuf : Nat
  scanline : Nat
  cycles : Nat
  nmiInterrupt : Option Nat
deriving DecidableEq

/-- `NesPPU::new`. -/
def NesPPU.new (chrRom : List Nat) (mirroring : Mirroring) : NesPPU :=
  { chrRom := chrRom
    paletteTable := List.replicate 32 0
    vram := List.replicate 2048 0
    oamAddr := 0
    oamData := List.replicate (64 * 4) 0
    mirroring := mirroring
    addr := AddrRegister.new
    ctrl := ControlRegister.new
    mask := { bits := 0 }
    status := { bits := 0 }
    scroll := { scrollX := 0, scrollY := 0, latch := false }
    internalDataBuf := 0
    scanline := 0
    cycles := 0
    nmiInterrupt := none }

/-- `NesPPU::tick`: advance the dot counter; when it exceeds 341 subtract 341
and advance the scanline, with the VBlank / NMI transitions at scanline 241
and the frame-complete signal (the `true` return) at scanline 262.
The `u16` scanline increment cannot overflow because the scanline is reset
upon reaching 262, so it is modelled as a plain `Nat` increment. -/
def NesPPU.tick (p : NesPPU) (cycles : Nat) : NesPPU × Bool :=
  let p1 := { p with cycles := p.cycles + cycles }
  if p1.cycles > 341 then
    let p2 := { p1 with cycles := p1.cycles - 341, scanline := p1.scanline + 1 }
    let p3 : NesPPU :=
      if p2.scanline = 241 then
        let pa := { p2 with status := p2.status.setVblankStatus true }
        let pb := { pa with status := pa.status.setSpriteZeroHit false }
        if pb.ctrl.generateVblankNmi then { pb with nmiInterrupt := some 1 } else pb
      else p2
    if p3.scanline ≥ 262 then
      ({ p3 with scanline := 0, nmiInterrupt := none,
                 status := (p3.status.setSpriteZeroHit false).resetVblankStatus }, true)
    else (p3, false)
  else (p1, false)

/-- `NesPPU::poll_nmi_interrupt`: take (return and clear) the NMI latch. -/
def NesPPU.pollNmiInterrupt (p : NesPPU) : Option Nat × NesPPU :=
  (p.nmiInterrupt, { p with nmiInterrupt := none })

/-- `NesPPU::write_to_ppu_addr` ($2006). -/
def NesPPU.writeToPpuAddr (p : NesPPU) (value : Nat) : NesPPU :=
  { p with addr := p.addr.update value }

/-- `NesPPU::write_to_ctrl` ($2000): raises the NMI latch when the
generate-NMI bit turns on during VBlank. -/
def NesPPU.writeToCtrl (p : NesPPU) (value : Nat) : NesPPU :=
  let beforeNmiStatus := p.ctrl.generateVblankNmi
  let p1 := { p with ctrl := p.ctrl.update value }
  if !beforeNmiStatus && p1.ctrl.generateVblankNmi && p1.status.isInVblank then
    { p1 with nmiInterrupt := some 1 }
  else p1

/-- `NesPPU::write_to_mask` ($2001). -/
def NesPPU.writeToMask (p : NesPPU) (value : Nat) : NesPPU :=
  { p with mask := p.mask.update value }

/-- `NesPPU::write_to_oam_addr` ($2003). -/
def NesPPU.writeToOamAddr (p : NesPPU) (value : Nat) : NesPPU :=
  { p with oamAddr := value % 256 }

/-- `NesPPU::read_status` ($2002): snapshot, then clear VBlank and reset both
write latches. -/
def NesPPU.readStatus (p : NesPPU) : Nat × NesPPU :=
  (p.status.snapshot,
   { p with status := p.status.resetVblankStatus,
            addr := p.addr.resetLatch,
            scroll := p.scroll.resetLatch })

/-- `NesPPU::mirror_vram_addr`: nametable mirroring.  Call sites pass
addresses in 0x2000-0x2FFF, for which the `u16` subtraction cannot
underflow. -/
def NesPPU.mirrorVramAddr (p : NesPPU) (addr : Nat) : Nat :=
  let mirroredVram := addr &&& 0b10111111111111
  let vramIndex := mirroredVram - 0x2000
  let nameTable := vramIndex / 0x400
  match p.mirroring with
  | Mirroring.VERTICAL =>
      if nameTable = 2 ∨ nameTable = 3 then vramIndex - 0x800 else vramIndex
  | Mirroring.HORIZONTAL =>
      if nameTable = 2 then vramIndex - 0x400
      else if nameTable = 1 then vramIndex - 0x400
      else if nameTable = 3 then vramIndex - 0x800
      else vramIndex
  | Mirroring.FOUR_SCREEN => vramIndex

/-- `NesPPU::increment_vram_addr`. -/
def NesPPU.incrementVramAddr (p : NesPPU) : NesPPU :=
  { p with addr := p.addr.increment p.ctrl.vramAddrIncrement }

/-- `NesPPU::read_data` ($2007 read): increment the address register, then
dispatch on the pre-increment address.  Reads below 0x3000 are buffered;
0x3000-0x3EFF and addresses past 0x3FFF panic (`none`); palette reads return
the palette byte directly.  Out-of-bounds `Vec`/array indexing is `none`. -/
def NesPPU.readData (p : NesPPU) : Option (Nat × NesPPU) :=
  let addr := p.addr.get
  let p1 := p.incrementVramAddr
  if addr ≤ 0x1FFF then
    (p.chrRom[addr]?).map fun v =>
      (p1.internalDataBuf, { p1 with internalDataBuf := v })
  else if addr ≤ 0x2FFF then
    (p.vram[p.mirrorVramAddr addr]?).map fun v =>
      (p1.internalDataBuf, { p1 with internalDataBuf := v })
  else if addr ≤ 0x3EFF then
    none
  else if addr ≤ 0x3FFF then
    (p.paletteTable[addr - 0x3F00]?).map fun v => (v, p1)
  else none

/-- `NesPPU::write_to_data` ($2007 write): dispatch on the address; writes to
CHR-ROM space are dropped (only a log line), 0x3000-0x3EFF is
`unimplemented!` (`none`), the four palette alias addresses are remapped
before storage; on success the address register is incremented. -/
def NesPPU.writeToData (p : NesPPU) (value : Nat) : Option NesPPU :=
  let addr := p.addr.get
  let written : Option NesPPU :=
    if addr ≤ 0x1FFF then
      some p
    else if addr ≤ 0x2FFF then
      if p.mirrorVramAddr addr < p.vram.length then
        some { p with vram := p.vram.set (p.mirrorVramAddr addr) (value % 256) }
      else none
    else if addr ≤ 0x3EFF then
      none
    else if addr = 0x3F10 ∨ addr = 0x3F14 ∨ addr = 0x3F18 ∨ addr = 0x3F1C then
      let addMirror := addr - 0x10
      if addMirror - 0x3F00 < p.paletteTable.length then
        some { p with paletteTable := p.paletteTable.set (addMirror - 0x3F00) (value % 256) }
      else none
    else if addr ≤ 0x3FFF then
      if addr - 0x3F00 < p.paletteTable.length then
        some { p with paletteTable := p.paletteTable.set (addr - 0x3F00) (value % 256) }
      else none
    else none
  written.map NesPPU.incrementVramAddr

/-- Iterated single-dot PPU ticks from a freshly constructed PPU; the second
component is the boolean returned by the `n`-th tick (`false` for `n = 0`). -/
def tickFromNew (chr : List Nat) (mir : Mirroring) : Nat → NesPPU × Bool
  | 0 => (NesPPU.new chr mir, false)
  | n + 1 => (tickFromNew chr mir n).1.tick 1

/-- Modelled from the spec: `joypad.rs` is not under src/; a strobe flag, a
button-index counter and a one-byte button snapshot. -/
structure Joypad where
  strobe : Bool
  buttonIndex : Nat
  buttonStatus : Nat
deriving DecidableEq

/-- Modelled from the spec: `$4016` read; index past 7 yields 1, otherwise the
indexed snapshot bit, incrementing the counter when strobe is off. -/
def Joypad.read (j : Joypad) : Nat × Joypad :=
  if j.buttonIndex > 7 then (1, j)
  else
    let response := (j.buttonStatus >>> j.buttonIndex) &&& 1
    if j.strobe then (response, j)
    else (response, { j with buttonIndex := j.buttonIndex + 1 })

/-- `Bus` state from `bus.rs`.  The heap-allocated frame callback carries no
observable data and is omitted; `Bus::tick` forwards the frame-complete
signal of `NesPPU.tick` to it. -/
structure Bus where
  cpuWram : List Nat
  prgRom : List Nat
  ppu : NesPPU
  cycles : Nat
  joypad1 : Joypad
deriving DecidableEq

/-- `Bus::read_prg_rom`: subtract the 0x8000 base (callers guarantee
`addr ≥ 0x8000`), fold a 16 KiB image over the 32 KiB window, and index the
PRG-ROM vector (`none` for an out-of-bounds panic). -/
def Bus.readPrgRom (b : Bus) (addr : Nat) : Option Nat :=
  let addr1 := addr - 0x8000
  let addr2 :=
    if b.prgRom.length = 0x4000 ∧ addr1 ≥ 0x4000 then addr1 % 0x4000 else addr1
  b.prgRom[addr2]?

/-- `Bus::mem_read` (`impl Mem for Bus`), with the match arms in source
order: WRAM mirroring; the write-only panic arm (which includes 0x4014);
the PPU registers 0x2002 / 0x2004 / 0x2007; the PPU register mirror range
recursing on `addr &&& 0x2007`; the APU/IO stubs; the joypad; PRG-ROM; and
the final catch-all returning 0. -/
def Bus.memRead (b : Bus) (addr : Nat) : Option (Nat × Bus) :=
  if addr ≤ 0x1FFF then
    (b.cpuWram[addr &&& 0b0000011111111111]?).map fun v => (v, b)
  else if addr = 0x2000 ∨ addr = 0x2001 ∨ addr = 0x2003 ∨ addr = 0x2005 ∨
          addr = 0x2006 ∨ addr = 0x4014 then
    none
  else if addr = 0x2002 then
    let r := b.ppu.readStatus
    some (r.1, { b with ppu := r.2 })
  else if addr = 0x2004 then
    (b.ppu.oamData[b.ppu.oamAddr]?).map fun v => (v, b)
  else if addr = 0x2007 then
    (b.ppu.readData).map fun r => (r.1, { b with ppu := r.2 })
  else if h : 0x2008 ≤ addr ∧ addr ≤ 0x3FFF then
    Bus.memRead b (addr &&& 0b0010000000000111)
  else if addr ≤ 0x4015 then
    some (0, b)
  else if addr = 0x4016 then
    let r := b.joypad1.read
    some (r.1, { b with joypad1 := r.2 })
  else if addr = 0x4017 then
    some (0, b)
  else if 0x8000 ≤ addr ∧ addr ≤ 0xFFFF then
    (b.readPrgRom addr).map fun v => (v, b)
  else
    some (0, b)
termination_by addr
decreasing_by
  have hle : addr &&& 0b0010000000000111 ≤ 0b0010000000000111 := Nat.and_le_right
  omega

/-- `Bus::tick`: advance the CPU cycle counter, forward `cycles * 3` PPU dots
(a checked `u8` multiplication), and report whether the PPU signalled frame
completion, upon which the bus invokes the host frame callback. -/
def Bus.tick (b : Bus) (cycles : Nat) : Option (Bus × Bool) :=
  if cycles * 3 ≤ 0xFF then
    let b1 := { b with cycles := b.cycles + cycles }
    let r := b1.ppu.tick (cycles * 3)
    some ({ b1 with ppu := r.1 }, r.2)
  else none

/-- `Bus::poll_nmi_status`: take the PPU NMI latch. -/
def Bus.pollNmiStatus (b : Bus) : Option Nat × Bus :=
  let r := b.ppu.pollNmiInterrupt
  (r.1, { b with ppu := r.2 })

/-!
The CPU core (`cpu.rs`) is written against the `Mem` trait, whose
`mem_read` / `mem_write` the `Bus` implements.  The CPU embedding below is
therefore parametrised by an abstract byte-valued memory `Mem`; the
`bus.tick` calls inside the handlers (cycle accounting and PPU forwarding)
change no CPU register, flag or memory byte and are not part of the CPU
state transition.
-/

/-- Abstract trait-level memory: a total byte-valued store. -/
def Mem : Type := Nat → Nat

/-- `Mem::mem_read`: memory yields bytes. -/
def memRd (m : Mem) (addr : Nat) : Nat := m addr % 256

/-- `Mem::mem_write`. -/
def memWr (m : Mem) (addr v : Nat) : Mem := Function.update m addr (v % 256)

/-- Default `Mem::mem_read_u16`: little-endian pair of byte reads, where the
high-byte address is the checked `u16` addition `pos + 1` (panicking, hence
`none`, when `pos = 0xFFFF`). -/
def memReadU16 (m : Mem) (pos : Nat) : Option Nat :=
  if pos + 1 ≤ 0xFFFF then
    some ((memRd m (pos + 1) <<< 8) ||| memRd m pos)
  else none

/-- Wrapping `u8` subtraction. -/
def sub8 (a b : Nat) : Nat := (a % 256 + 256 - b % 256) % 256

/-- `AddressingMode` from `cpu.rs`. -/
inductive Mode where
  | immediate
  | zeroPage
  | zeroPageX
  | zeroPageY
  | absolute
  | absoluteX
  | absoluteY
  | indirectX
  | indirectY
  | noneAddressing
deriving DecidableEq

/-- CPU register file from `cpu.rs` (the `bus` field is replaced by the
abstract memory threaded alongside).  All fields denote `u8` values except
the 16-bit `pc`. -/
structure CPUState where
  regA : Nat
  regX : Nat
  regY : Nat
  sp : Nat
  status : Nat
  pc : Nat
deriving DecidableEq

/-- `CPU::push_stack`: write at `0x100 + S`, then decrement S (wrapping). -/
def pushStack (s : CPUState) (m : Mem) (data : Nat) : CPUState × Mem :=
  ({ s with sp := (s.sp + 255) % 256 }, memWr m (0x100 + s.sp) data)

/-- `CPU::pop_stack`: increment S (wrapping), then read at `0x100 + S`. -/
def popStack (s : CPUState) (m : Mem) : CPUState × Nat :=
  let sp1 := (s.sp + 1) % 256
  ({ s with sp := sp1 }, memRd m (0x100 + sp1))

/-- `CPU::push_stack_u16`: push the high byte, then the low byte. -/
def pushStackU16 (s : CPUState) (m : Mem) (data : Nat) : CPUState × Mem :=
  let r1 := pushStack s m (data >>> 8)
  pushStack r1.1 r1.2 (data &&& 0xFF)

/-- `CPU::pop_stack_u16`: pop the low byte, then the high byte. -/
def popStackU16 (s : CPUState) (m : Mem) : CPUState × Nat :=
  let r1 := popStack s m
  let r2 := popStack r1.1 m
  (r2.1, (r2.2 <<< 8) ||| r1.2)

/-- `CPU::update_zero_and_negative_flags`: Z from the byte being zero, N from
its bit 7.  Callers pass wrapped byte values. -/
def updateZN (st v : Nat) : Nat :=
  let st1 := if v % 256 = 0 then st ||| 0b00000010 else st &&& 0b11111101
  if v &&& 0b10000000 ≠ 0 then st1 ||| 0b10000000 else st1 &&& 0b01111111

/-- `CPU::page_cross`. -/
def pageCross (addr1 addr2 : Nat) : Bool :=
  addr1 &&& 0xFF00 != addr2 &&& 0xFF00

/-- `CPU::get_operand_address`: the (target address, page-crossed) pair for a
mode; `NoneAddressing` panics (`none`), and the `Absolute*` modes use the
checked 16-bit read at `pc`. -/
def getOperandAddress (s : CPUState) (m : Mem) : Mode → Option (Nat × Bool)
  | Mode.immediate => some (s.pc, false)
  | Mode.zeroPage => some (memRd m s.pc, false)
  | Mode.zeroPageX => some ((memRd m s.pc + s.regX) % 256, false)
  | Mode.zeroPageY => some ((memRd m s.pc + s.regY) % 256, false)
  | Mode.absolute => (memReadU16 m s.pc).map fun a => (a, false)
  | Mode.absoluteX =>
      (memReadU16 m s.pc).map fun base =>
        let addr := (base + s.regX) % 65536
        (addr, pageCross base addr)
  | Mode.absoluteY =>
      (memReadU16 m s.pc).map fun base =>
        let addr := (base + s.regY) % 65536
        (addr, pageCross base addr)
  | Mode.indirectX =>
      let base := memRd m s.pc
      let ptr := (base + s.regX) % 256
      let lo := memRd m ptr
      let hi := memRd m ((ptr + 1) % 256)
      some ((hi <<< 8) ||| lo, false)
  | Mode.indirectY =>
      let base := memRd m s.pc
      let lo := memRd m base
      let hi := memRd m ((base + 1) % 256)
      let derefBase := (hi <<< 8) ||| lo
      let deref := (derefBase + s.regY) % 65536
      some (deref, pageCross deref derefBase)
  | Mode.noneAddressing => none

/-- `CPU::adc`: `A + M + C` with carry from the 16-bit sum and overflow from
`(M ^ result) & (result ^ A) & 0x80`. -/
def adc (s : CPUState) (m : Mem) (mode : Mode) : Option (CPUState × Mem) :=
  (getOperandAddress s m mode).map fun p =>
    let memValue := memRd m p.1
    let a := s.regA
    let c := s.status &&& 0b00000001
    let sum := a + memValue + c
    let st1 := if sum > 0xFF then s.status ||| 0b00000001 else s.status &&& 0b11111110
    let result := sum % 256
    let st2 :=
      if (memValue ^^^ result) &&& (result ^^^ a) &&& 0x80 ≠ 0 then st1 ||| 0b01000000
      else st1 &&& 0b10111111
    ({ s with regA := result, status := updateZN st2 result }, m)

/-- `CPU::and`. -/
def andA (s : CPUState) (m : Mem) (mode : Mode) : Option (CPUState × Mem) :=
  (getOperandAddress s m mode).map fun p =>
    let value := memRd m p.1
    let a1 := s.regA &&& value
    ({ s with regA := a1, status := updateZN s.status a1 }, m)

/-- `CPU::asl_a`. -/
def aslA (s : CPUState) : CPUState :=
  let value := s.regA
  let st1 := if value >>> 7 = 1 then s.status ||| 0b00000001 else s.status &&& 0b11111110
  let value1 := (value <<< 1) % 256
  { s with regA := value1, status := updateZN st1 value1 }

/-- `CPU::asl_m`: the written-back value is also returned (for `SLO`). -/
def aslM (s : CPUState) (m : Mem) (mode : Mode) : Option (Nat × CPUState × Mem) :=
  (getOperandAddress s m mode).map fun p =>
    let value := memRd m p.1
    let st1 := if value >>> 7 = 1 then s.status ||| 0b00000001 else s.status &&& 0b11111110
    let value1 := (value <<< 1) % 256
    (value1, { s with status := updateZN st1 value1 }, memWr m p.1 value1)

/-- Sign extension of a `u8` read as an `i8` offset into `u16` arithmetic. -/
def branchOffset (j : Nat) : Nat := if j < 128 then j else j + 0xFF00

/-- `CPU::branch`: when taken, `pc := pc + 1 + signed_offset` (wrapping). -/
def branch (s : CPUState) (m : Mem) (condition : Bool) : CPUState :=
  if condition then
    let jump := memRd m s.pc
    { s with pc := (s.pc + 1 + branchOffset jump) % 65536 }
  else s

/-- `CPU::bit`: V from operand bit 6, N from bit 7, Z from `A &&& M`. -/
def bit (s : CPUState) (m : Mem) (mode : Mode) : Option CPUState :=
  (getOperandAddress s m mode).map fun p =>
    let memValue := memRd m p.1
    let st1 :=
      if (memValue &&& 0b01000000) >>> 6 = 1 then s.status ||| 0b01000000
      else s.status &&& 0b10111111
    let st2 := if memValue >>> 7 = 1 then st1 ||| 0b10000000 else st1 &&& 0b01111111
    let st3 := if s.regA &&& memValue = 0 then st2 ||| 0b00000010 else st2 &&& 0b11111101
    { s with status := st3 }

/-- `CPU::clc`. -/
def clc (s : CPUState) : CPUState := { s with status := s.status &&& 0b11111110 }

/-- `CPU::cld`. -/
def cld (s : CPUState) : CPUState := { s with status := s.status &&& 0b11110111 }

/-- `CPU::cli`. -/
def cli (s : CPUState) : CPUState := { s with status := s.status &&& 0b11111011 }

/-- `CPU::clv`. -/
def clv (s : CPUState) : CPUState := { s with status := s.status &&& 0b10111111 }

/-- `CPU::cmp` (shared by CMP/CPX/CPY): C iff `reg ≥ M`, then Z/N from
`reg - M` (wrapping). -/
def cmp (s : CPUState) (m : Mem) (mode : Mode) (regValue : Nat) : Option (CPUState × Mem) :=
  (getOperandAddress s m mode).map fun p =>
    let memValue := memRd m p.1
    let st1 := if regValue ≥ memValue then s.status ||| 0b00000001 else s.status &&& 0b11111110
    ({ s with status := updateZN st1 (sub8 regValue memValue) }, m)

/-- `CPU::dec`. -/
def dec (s : CPUState) (m : Mem) (mode : Mode) : Option (CPUState × Mem) :=
  (getOperandAddress s m mode).map fun p =>
    let value := memRd m p.1
    let result := sub8 value 1
    ({ s with status := updateZN s.status result }, memWr m p.1 result)

/-- `CPU::dex`. -/
def dex (s : CPUState) : CPUState :=
  let x1 := if s.regX = 0 then 0xFF else s.regX - 1
  { s with regX := x1, status := updateZN s.status x1 }

/-- `CPU::dey`. -/
def dey (s : CPUState) : CPUState :=
  let y1 := if s.regY = 0 then 0xFF else s.regY - 1
  { s with regY := y1, status := updateZN s.status y1 }

/-- `CPU::eor`. -/
def eor (s : CPUState) (m : Mem) (mode : Mode) : Option (CPUState × Mem) :=
  (getOperandAddress s m mode).map fun p =>
    let value := memRd m p.1
    let a1 := (s.regA ^^^ value) % 256
    ({ s with regA := a1, status := updateZN s.status a1 }, m)

/-- `CPU::inc`: the written-back value is also returned (for `ISB`). -/
def inc (s : CPUState) (m : Mem) (mode : Mode) : Option (Nat × CPUState × Mem) :=
  (getOperandAddress s m mode).map fun p =>
    let value := memRd m p.1
    let result := (value + 1) % 256
    (result, { s with status := updateZN s.status result }, memWr m p.1 result)

/-- `CPU::inx`. -/
def inx (s : CPUState) : CPUState :=
  let x1 := if s.regX = 0xFF then 0 else s.regX + 1
  { s with regX := x1, status := updateZN s.status x1 }

/-- `CPU::iny`. -/
def iny (s : CPUState) : CPUState :=
  let y1 := if s.regY = 0xFF then 0 else s.regY + 1
  { s with regY := y1, status := updateZN s.status y1 }

/-- `CPU::jmp_absolute`. -/
def jmpAbsolute (s : CPUState) (m : Mem) : Option CPUState :=
  (memReadU16 m s.pc).map fun a => { s with pc := a }

/-- `CPU::jmp_indirect`, with the 6502 page-boundary quirk. -/
def jmpIndirect (s : CPUState) (m : Mem) : Option CPUState :=
  (memReadU16 m s.pc).bind fun addr =>
    if addr &&& 0x00FF = 0x00FF then
      let lo := memRd m addr
      let hi := memRd m (addr &&& 0xFF00)
      some { s with pc := (hi <<< 8) ||| lo }
    else
      (memReadU16 m addr).map fun ia => { s with pc := ia }

/-- `CPU::jsr`: push `pc + 2 - 1` (checked `u16` addition), then load `pc`
from the absolute operand (read after the push, as in the source). -/
def jsr (s : CPUState) (m : Mem) : Option (CPUState × Mem) :=
  if s.pc + 2 ≤ 0xFFFF then
    let r := pushStackU16 s m (s.pc + 2 - 1)
    (memReadU16 r.2 r.1.pc).map fun a => ({ r.1 with pc := a }, r.2)
  else none

/-- `CPU::lda`. -/
def lda (s : CPUState) (m : Mem) (mode : Mode) : Option (CPUState × Mem) :=
  (getOperandAddress s m mode).map fun p =>
    let value := memRd m p.1
    ({ s with regA := value, status := updateZN s.status value }, m)

/-- `CPU::ldx`. -/
def ldx (s : CPUState) (m : Mem) (mode : Mode) : Option (CPUState × Mem) :=
  (getOperandAddress s m mode).map fun p =>
    let value := memRd m p.1
    ({ s with regX := value, status := updateZN s.status value }, m)

/-- `CPU::ldy`. -/
def ldy (s : CPUState) (m : Mem) (mode : Mode) : Option (CPUState × Mem) :=
  (getOperandAddress s m mode).map fun p =>
    let value := memRd m p.1
    ({ s with regY := value, status := updateZN s.status value }, m)

/-- `CPU::lsr_a`. -/
def lsrA (s : CPUState) : CPUState :=
  let value := s.regA
  let st1 := if value &&& 1 = 1 then s.status ||| 0b00000001 else s.status &&& 0b11111110
  let value1 := value >>> 1
  { s with regA := value1, status := updateZN st1 value1 }

/-- `CPU::lsr_m`: the written-back value is also returned (for `SRE`). -/
def lsrM (s : CPUState) (m : Mem) (mode : Mode) : Option (Nat × CPUState × Mem) :=
  (getOperandAddress s m mode).map fun p =>
    let value := memRd m p.1
    let st1 := if value &&& 1 = 1 then s.status ||| 0b00000001 else s.status &&& 0b11111110
    let value1 := value >>> 1
    (value1, { s with status := updateZN st1 value1 }, memWr m p.1 value1)

/-- `CPU::ora`. -/
def ora (s : CPUState) (m : Mem) (mode : Mode) : Option (CPUState × Mem) :=
  (getOperandAddress s m mode).map fun p =>
    let value := memRd m p.1
    let a1 := s.regA ||| value
    ({ s with regA := a1, status := updateZN s.status a1 }, m)

/-- `CPU::pha`. -/
def pha (s : CPUState) (m : Mem) : CPUState × Mem := pushStack s m s.regA

/-- `CPU::php`: push `P ||| 0x30` (B and U both set in the pushed copy). -/
def php (s : CPUState) (m : Mem) : CPUState × Mem :=
  pushStack s m (s.status ||| 0b00110000)

/-- `CPU::pla`. -/
def pla (s : CPUState) (m : Mem) : CPUState :=
  let r := popStack s m
  { r.1 with regA := r.2, status := updateZN r.1.status r.2 }

/-- `CPU::plp`: pull P, then force B = 0 and U = 1. -/
def plp (s : CPUState) (m : Mem) : CPUState :=
  let r := popStack s m
  { r.1 with status := (r.2 &&& 0b11101111) ||| 0b00100000 }

/-- `CPU::rol_a`. -/
def rolA (s : CPUState) : CPUState :=
  let value := s.regA
  let currentCarry := s.status &&& 0b00000001
  let st1 := if value >>> 7 = 1 then s.status ||| 0b00000001 else s.status &&& 0b11111110
  let value1 := (value <<< 1) % 256
  let value2 := if currentCarry = 1 then value1 ||| 1 else value1
  { s with regA := value2, status := updateZN st1 value2 }

/-- `CPU::rol_m`: the written-back value is also returned (for `RLA`). -/
def rolM (s : CPUState) (m : Mem) (mode : Mode) : Option (Nat × CPUState × Mem) :=
  (getOperandAddress s m mode).map fun p =>
    let value := memRd m p.1
    let currentCarry := s.status &&& 0b00000001
    let st1 := if value >>> 7 = 1 then s.status ||| 0b00000001 else s.status &&& 0b11111110
    let value1 := (value <<< 1) % 256
    let value2 := if currentCarry = 1 then value1 ||| 1 else value1
    (value2, { s with status := updateZN st1 value2 }, memWr m p.1 value2)

/-- `CPU::ror_a`. -/
def rorA (s : CPUState) : CPUState :=
  let value := s.regA
  let currentCarry := s.status &&& 0b00000001
  let st1 := if value &&& 1 = 1 then s.status ||| 0b00000001 else s.status &&& 0b11111110
  let value1 := value >>> 1
  let value2 := if currentCarry = 1 then value1 ||| 0b10000000 else value1
  { s with regA := value2, status := updateZN st1 value2 }

/-- `CPU::ror_m`: the written-back value is also returned (for `RRA`). -/
def rorM (s : CPUState) (m : Mem) (mode : Mode) : Option (Nat × CPUState × Mem) :=
  (getOperandAddress s m mode).map fun p =>
    let value := memRd m p.1
    let currentCarry := s.status &&& 0b00000001
    let st1 := if value &&& 1 = 1 then s.status ||| 0b00000001 else s.status &&& 0b11111110
    let value1 := value >>> 1
    let value2 := if currentCarry = 1 then value1 ||| 0b10000000 else value1
    (value2, { s with status := updateZN st1 value2 }, memWr m p.1 value2)

/-- `CPU::rti`: pull P (forcing B = 0, U = 1), then pull the 16-bit `pc`. -/
def rti (s : CPUState) (m : Mem) : CPUState :=
  let r := popStack s m
  let s1 := { r.1 with status := (r.2 &&& 0b11101111) ||| 0b00100000 }
  let r2 := popStackU16 s1 m
  { r2.1 with pc := r2.2 }

/-- `CPU::rts`: `pc := popped + 1`, a checked `u16` addition. -/
def rts (s : CPUState) (m : Mem) : Option CPUState :=
  let r := popStackU16 s m
  if r.2 + 1 ≤ 0xFFFF then some { r.1 with pc := r.2 + 1 } else none

/-- `CPU::sbc`: `A + (255 - M) + C`; `(M as i8).wrapping_neg().wrapping_sub(1)
as u8` equals `255 - M` for every byte `M`. -/
def sbc (s : CPUState) (m : Mem) (mode : Mode) : Option (CPUState × Mem) :=
  (getOperandAddress s m mode).map fun p =>
    let memValue := memRd m p.1
    let a := s.regA
    let b := 255 - memValue
    let c := s.status &&& 0b00000001
    let sum := a + b + c
    let st1 := if sum > 0xFF then s.status ||| 0b00000001 else s.status &&& 0b11111110
    let result := sum % 256
    let st2 :=
      if (b ^^^ result) &&& (result ^^^ a) &&& 0x80 ≠ 0 then st1 ||| 0b01000000
      else st1 &&& 0b10111111
    ({ s with regA := result, status := updateZN st2 result }, m)

/-- `CPU::sec`. -/
def sec (s : CPUState) : CPUState := { s with status := s.status ||| 0b00000001 }

/-- `CPU::sed`. -/
def sed (s : CPUState) : CPUState := { s with status := s.status ||| 0b00001000 }

/-- `CPU::sei`. -/
def sei (s : CPUState) : CPUState := { s with status := s.status ||| 0b00000100 }

/-- `CPU::sta`. -/
def sta (s : CPUState) (m : Mem) (mode : Mode) : Option (CPUState × Mem) :=
  (getOperandAddress s m mode).map fun p => (s, memWr m p.1 s.regA)

/-- `CPU::stx`. -/
def stx (s : CPUState) (m : Mem) (mode : Mode) : Option (CPUState × Mem) :=
  (getOperandAddress s m mode).map fun p => (s, memWr m p.1 s.regX)

/-- `CPU::sty`. -/
def sty (s : CPUState) (m : Mem) (mode : Mode) : Option (CPUState × Mem) :=
  (getOperandAddress s m mode).map fun p => (s, memWr m p.1 s.regY)

/-- `CPU::tax`. -/
def tax (s : CPUState) : CPUState :=
  { s with regX := s.regA, status := updateZN s.status s.regA }

/-- `CPU::tay`. -/
def tay (s : CPUState) : CPUState :=
  { s with regY := s.regA, status := updateZN s.status s.regA }

/-- `CPU::tsx`. -/
def tsx (s : CPUState) : CPUState :=
  { s with regX := s.sp, status := updateZN s.status s.sp }

/-- `CPU::txa`. -/
def txa (s : CPUState) : CPUState :=
  { s with regA := s.regX, status := updateZN s.status s.regX }

/-- `CPU::txs`. -/
def txs (s : CPUState) : CPUState := { s with sp := s.regX }

/-- `CPU::tya`. -/
def tya (s : CPUState) : CPUState :=
  { s with regA := s.regY, status := updateZN s.status s.regY }

/-- `CPU::unofficial_isb`: INC, then the SBC tail on the incremented value. -/
def unofficialIsb (s : CPUState) (m : Mem) (mode : Mode) : Option (CPUState × Mem) :=
  (inc s m mode).map fun r =>
    let data := r.1
    let s1 := r.2.1
    let m1 := r.2.2
    let a := s1.regA
    let b := 255 - data
    let c := s1.status &&& 0b00000001
    let sum := a + b + c
    let st1 := if sum > 0xFF then s1.status ||| 0b00000001 else s1.status &&& 0b11111110
    let result := sum % 256
    let st2 :=
      if (b ^^^ result) &&& (result ^^^ a) &&& 0x80 ≠ 0 then st1 ||| 0b01000000
      else st1 &&& 0b10111111
    ({ s1 with regA := result, status := updateZN st2 result }, m1)

/-- `CPU::unofficial_slo`: ASL on memory, then OR into A. -/
def unofficialSlo (s : CPUState) (m : Mem) (mode : Mode) : Option (CPUState × Mem) :=
  (aslM s m mode).map fun r =>
    let a1 := r.1 ||| r.2.1.regA
    ({ r.2.1 with regA := a1, status := updateZN r.2.1.status a1 }, r.2.2)

/-- `CPU::unofficial_rla`: ROL on memory, then AND into A. -/
def unofficialRla (s : CPUState) (m : Mem) (mode : Mode) : Option (CPUState × Mem) :=
  (rolM s m mode).map fun r =>
    let a1 := r.1 &&& r.2.1.regA
    ({ r.2.1 with regA := a1, status := updateZN r.2.1.status a1 }, r.2.2)

/-- `CPU::unofficial_sre`: LSR on memory, then EOR into A. -/
def unofficialSre (s : CPUState) (m : Mem) (mode : Mode) : Option (CPUState × Mem) :=
  (lsrM s m mode).map fun r =>
    let a1 := (r.1 ^^^ r.2.1.regA) % 256
    ({ r.2.1 with regA := a1, status := updateZN r.2.1.status a1 }, r.2.2)

/-- `CPU::unofficial_rra`: ROR on memory, then the ADC tail on the rotated
value. -/
def unofficialRra (s : CPUState) (m : Mem) (mode : Mode) : Option (CPUState × Mem) :=
  (rorM s m mode).map fun r =>
    let data := r.1
    let s1 := r.2.1
    let m1 := r.2.2
    let a := s1.regA
    let c := s1.status &&& 0b00000001
    let sum := a + data + c
    let st1 := if sum > 0xFF then s1.status ||| 0b00000001 else s1.status &&& 0b11111110
    let result := sum % 256
    let st2 :=
      if (data ^^^ result) &&& (result ^^^ a) &&& 0x80 ≠ 0 then st1 ||| 0b01000000
      else st1 &&& 0b10111111
    ({ s1 with regA := result, status := updateZN st2 result }, m1)

/-- The IGN multi-byte NOP arm: compute the operand address and read it,
changing no register. -/
def ignNop (s : CPUState) (m : Mem) (mode : Mode) : Option (CPUState × Mem) :=
  (getOperandAddress s m mode).map fun _ => (s, m)

/-- The LAX arm: load A and Z/N from the operand, then copy A into X. -/
def lax (s : CPUState) (m : Mem) (mode : Mode) : Option (CPUState × Mem) :=
  (getOperandAddress s m mode).map fun p =>
    let data := memRd m p.1
    ({ s with regA := data, regX := data, status := updateZN s.status data }, m)

/-- The SAX arm: store `A &&& X`, touching no flag. -/
def sax (s : CPUState) (m : Mem) (mode : Mode) : Option (CPUState × Mem) :=
  let data := s.regA &&& s.regX
  (getOperandAddress s m mode).map fun p => (s, memWr m p.1 data)

/-- The DCP arm: decrement the operand (wrapping) and write it back; set C
when `new value ≤ A` (with no else branch clearing it), then Z/N from
`A - new value`. -/
def dcpExec (s : CPUState) (m : Mem) (mode : Mode) : Option (CPUState × Mem) :=
  (getOperandAddress s m mode).map fun p =>
    let data := memRd m p.1
    let data1 := sub8 data 1
    let m1 := memWr m p.1 data1
    let st1 := if data1 ≤ s.regA then s.status ||| 0x00000001 else s.status
    ({ s with status := updateZN st1 (sub8 s.regA data1) }, m1)

/-- The AXS arm: `X := (X &&& A) - M` (wrapping), setting C when
`M ≤ X &&& A` (no else branch), Z/N from the result. -/
def axs (s : CPUState) (m : Mem) (mode : Mode) : Option (CPUState × Mem) :=
  (getOperandAddress s m mode).map fun p =>
    let data := memRd m p.1
    let xAndA := s.regX &&& s.regA
    let result := sub8 xAndA data
    let st1 := if data ≤ xAndA then s.status ||| 0b00000001 else s.status
    ({ s with regX := result, status := updateZN st1 result }, m)

/-- The ARR arm: AND into A, ROR A, then C from bit 6 and V from
bit 5 XOR bit 6 of the result. -/
def arr (s : CPUState) (m : Mem) (mode : Mode) : Option (CPUState × Mem) :=
  (getOperandAddress s m mode).map fun p =>
    let data := memRd m p.1
    let a1 := data &&& s.regA
    let s1 := { s with regA := a1, status := updateZN s.status a1 }
    let s2 := rorA s1
    let result := s2.regA
    let bit5 := (result >>> 5) &&& 1
    let bit6 := (result >>> 6) &&& 1
    let st1 := if bit6 = 1 then s2.status ||| 0b00000001 else s2.status &&& 0b11111110
    let st2 := if bit5 ^^^ bit6 = 1 then st1 ||| 0b01000000 else st1 &&& 0b10111111
    ({ s2 with status := updateZN st2 result }, m)

/-- The ANC arm: AND into A; then carry is set only when the whole status
byte equals `0b1000_0000` (as written in the source). -/
def anc (s : CPUState) (m : Mem) (mode : Mode) : Option (CPUState × Mem) :=
  (getOperandAddress s m mode).map fun p =>
    let data := memRd m p.1
    let a1 := data &&& s.regA
    let s1 := { s with regA := a1, status := updateZN s.status a1 }
    let st1 :=
      if s1.status = 0b10000000 then s1.status ||| 0b00000001 else s1.status &&& 0b11111110
    ({ s1 with status := st1 }, m)

/-- The ALR arm: AND into A, then LSR A. -/
def alr (s : CPUState) (m : Mem) (mode : Mode) : Option (CPUState × Mem) :=
  (getOperandAddress s m mode).map fun p =>
    let data := memRd m p.1
    let a1 := data &&& s.regA
    let s1 := { s with regA := a1, status := updateZN s.status a1 }
    (lsrA s1, m)

/-- The XAA arm: `A := X` with Z/N, then AND the operand into A with Z/N. -/
def xaa (s : CPUState) (m : Mem) (mode : Mode) : Option (CPUState × Mem) :=
  let s1 := { s with regA := s.regX, status := updateZN s.status s.regX }
  (getOperandAddress s1 m mode).map fun p =>
    let data := memRd m p.1
    let a1 := data &&& s1.regA
    ({ s1 with regA := a1, status := updateZN s1.status a1 }, m)

/-- The LAS arm: `A := X := S := M &&& S`, with Z/N. -/
def las (s : CPUState) (m : Mem) (mode : Mode) : Option (CPUState × Mem) :=
  (getOperandAddress s m mode).map fun p =>
    let data := memRd m p.1 &&& s.sp
    ({ s with regA := data, regX := data, sp := data, status := updateZN s.status data }, m)

/-- The TAS arm: `S := A &&& X`; the target address is the checked
`u16` sum of the absolute operand and Y, and the stored byte is
`(high byte + 1) &&& S` with a checked `u8` increment. -/
def tas (s : CPUState) (m : Mem) : Option (CPUState × Mem) :=
  let data := s.regA &&& s.regX
  let s1 := { s with sp := data }
  (memReadU16 m s1.pc).bind fun base =>
    if base + s1.regY ≤ 0xFFFF then
      let memAddress := base + s1.regY
      if (memAddress >>> 8) + 1 ≤ 0xFF then
        some (s1, memWr m memAddress (((memAddress >>> 8) + 1) &&& s1.sp))
      else none
    else none

/-- The AHX (Indirect),Y arm. -/
def ahxIndirectY (s : CPUState) (m : Mem) : Option (CPUState × Mem) :=
  let pos := memRd m s.pc
  (memReadU16 m pos).bind fun base =>
    if base + s.regY ≤ 0xFFFF then
      let memAddress := base + s.regY
      let data := s.regA &&& s.regX &&& (memAddress >>> 8)
      some (s, memWr m memAddress data)
    else none

/-- The AHX Absolute,Y arm. -/
def ahxAbsoluteY (s : CPUState) (m : Mem) : Option (CPUState × Mem) :=
  (memReadU16 m s.pc).bind fun base =>
    if base + s.regY ≤ 0xFFFF then
      let memAddress := base + s.regY
      let data := s.regA &&& s.regX &&& (memAddress >>> 8)
      some (s, memWr m memAddress data)
    else none

/-- The SHX arm: store `X &&& (high byte + 1)` (checked increment). -/
def shx (s : CPUState) (m : Mem) : Option (CPUState × Mem) :=
  (memReadU16 m s.pc).bind fun base =>
    if base + s.regY ≤ 0xFFFF then
      let memAddress := base + s.regY
      if (memAddress >>> 8) + 1 ≤ 0xFF then
        some (s, memWr m memAddress (s.regX &&& ((memAddress >>> 8) + 1)))
      else none
    else none

/-- The SHY arm: the address is indexed by X, the stored byte is
`Y &&& (high byte + 1)` (checked increment). -/
def shy (s : CPUState) (m : Mem) : Option (CPUState × Mem) :=
  (memReadU16 m s.pc).bind fun base =>
    if base + s.regX ≤ 0xFFFF then
      let memAddress := base + s.regX
      if (memAddress >>> 8) + 1 ≤ 0xFF then
        some (s, memWr m memAddress (s.regY &&& ((memAddress >>> 8) + 1)))
      else none
    else none

/-- `Interrupt` descriptor from `interrupts.rs`. -/
structure Interrupt where
  vectorAddr : Nat
  bFlagMask : Nat
  cpuCycles : Nat
deriving DecidableEq

/-- The `NMI` constant from `interrupts.rs`. -/
def NMI : Interrupt := { vectorAddr := 0xFFFA, bFlagMask := 0b00100000, cpuCycles := 2 }

/-- `CPU::interrupt`: push `pc` (high then low); build the pushed status copy
with the two `b_flag_mask &&& bit == 1` tests exactly as written in the
source; push it; set I; load `pc` from the vector.  The `bus.tick`
of `cpu_cycles` changes no CPU-visible state and is not modelled. -/
def interrupt (s : CPUState) (m : Mem) (i : Interrupt) : Option (CPUState × Mem) :=
  let r1 := pushStackU16 s m s.pc
  let flag := s.status
  let flag1 :=
    if i.bFlagMask &&& 0b010000 = 1 then flag ||| 0b00010000 else flag &&& 0b11101111
  let flag2 :=
    if i.bFlagMask &&& 0b100000 = 1 then flag1 ||| 0b00100000 else flag1 &&& 0b11011111
  let r2 := pushStack r1.1 r1.2 flag2
  let s3 := { r2.1 with status := r2.1.status ||| 0b00000100 }
  (memReadU16 r2.2 i.vectorAddr).map fun v => ({ s3 with pc := v }, r2.2)

/-- Per-opcode descriptor: addressing mode, encoded length, base cycles. -/
structure OpInfo where
  mode : Mode
  len : Nat
  cycles : Nat

/-- Modelled from the spec: `opcodes.rs` (`OPCODES_MAP`) is not under src/;
the spec describes it as a read-only mapping from the 256 possible opcode
bytes to a descriptor, so it is taken as an arbitrary total table. -/
def OpTable : Type := Nat → OpInfo

/-- The instruction alphabet of the `match code` in `CPU::run_with_callback`:
one constructor per arm of the source match (the distinct register variants
of `cmp` and the four unstable-store shapes kept apart). -/
inductive Instr where
  | iADC | iAND | iASLa | iASLm | iBCC | iBCS | iBEQ | iBIT | iBMI | iBNE | iBPL
  | iBRK | iBVC | iBVS | iCLC | iCLD | iCLI | iCLV | iCMP | iCPX | iCPY | iDEC
  | iDEX | iDEY | iEOR | iINC | iINX | iINY | iJSR | iJMPabs | iJMPind
  | iLDA | iLDX | iLDY | iLSRa | iLSRm | iNOP | iORA | iPHA | iPHP | iPLA | iPLP
  | iROLa | iROLm | iRORa | iRORm | iRTI | iRTS | iSBC | iSEC | iSED | iSEI
  | iSTA | iSTX | iSTY | iTAX | iTAY | iTSX | iTXA | iTXS | iTYA
  | iIGN | iFREEZE | iNOP2 | iSKB | iLAX | iSAX | iDCP | iISB | iSLO | iRLA
  | iSRE | iRRA | iAXS | iARR | iANC | iALR | iLXA | iXAA | iLAS | iTAS
  | iAHXindY | iAHXabsY | iSHX | iSHY
deriving DecidableEq

set_option maxHeartbeats 3200000 in
/-- Opcode byte to instruction, with the arms of the source match in source
order; the match there is exhaustive over `u8`, so no catch-all arises for
bytes below 256 (larger arguments cannot occur since opcodes are fetched as
bytes; they are mapped to the freeze arm, which does nothing). -/
def decode (code : Nat) : Instr :=
  match code with
  | 0x69 | 0x65 | 0x75 | 0x6D | 0x7D | 0x79 | 0x61 | 0x71 => Instr.iADC
  | 0x29 | 0x25 | 0x35 | 0x2D | 0x3D | 0x39 | 0x21 | 0x31 => Instr.iAND
  | 0x0A => Instr.iASLa
  | 0x06 | 0x16 | 0x0E | 0x1E => Instr.iASLm
  | 0x90 => Instr.iBCC
  | 0xB0 => Instr.iBCS
  | 0xF0 => Instr.iBEQ
  | 0x24 | 0x2C => Instr.iBIT
  | 0x30 => Instr.iBMI
  | 0xD0 => Instr.iBNE
  | 0x10 => Instr.iBPL
  | 0x00 => Instr.iBRK
  | 0x50 => Instr.iBVC
  | 0x70 => Instr.iBVS
  | 0x18 => Instr.iCLC
  | 0xD8 => Instr.iCLD
  | 0x58 => Instr.iCLI
  | 0xB8 => Instr.iCLV
  | 0xC9 | 0xC5 | 0xD5 | 0xCD | 0xDD | 0xD9 | 0xC1 | 0xD1 => Instr.iCMP
  | 0xE0 | 0xE4 | 0xEC => Instr.iCPX
  | 0xC0 | 0xC4 | 0xCC => Instr.iCPY
  | 0xC6 | 0xD6 | 0xCE | 0xDE => Instr.iDEC
  | 0xCA => Instr.iDEX
  | 0x88 => Instr.iDEY
  | 0x49 | 0x45 | 0x55 | 0x4D | 0x5D | 0x59 | 0x41 | 0x51 => Instr.iEOR
  | 0xE6 | 0xF6 | 0xEE | 0xFE => Instr.iINC
  | 0xE8 => Instr.iINX
  | 0xC8 => Instr.iINY
  | 0x20 => Instr.iJSR
  | 0x4C => Instr.iJMPabs
  | 0x6C => Instr.iJMPind
  | 0xA9 | 0xA5 | 0xB5 | 0xAD | 0xBD | 0xB9 | 0xA1 | 0xB1 => Instr.iLDA
  | 0xA2 | 0xA6 | 0xB6 | 0xAE | 0xBE => Instr.iLDX
  | 0xA0 | 0xA4 | 0xB4 | 0xAC | 0xBC => Instr.iLDY
  | 0x4A => Instr.iLSRa
  | 0x46 | 0x56 | 0x4E | 0x5E => Instr.iLSRm
  | 0xEA => Instr.iNOP
  | 0x09 | 0x05 | 0x15 | 0x0D | 0x1D | 0x19 | 0x01 | 0x11 => Instr.iORA
  | 0x48 => Instr.iPHA
  | 0x08 => Instr.iPHP
  | 0x68 => Instr.iPLA
  | 0x28 => Instr.iPLP
  | 0x2A => Instr.iROLa
  | 0x26 | 0x36 | 0x2E | 0x3E => Instr.iROLm
  | 0x6A => Instr.iRORa
  | 0x66 | 0x76 | 0x6E | 0x7E => Instr.iRORm
  | 0x40 => Instr.iRTI
  | 0x60 => Instr.iRTS
  | 0xE9 | 0xE5 | 0xF5 | 0xED | 0xFD | 0xF9 | 0xE1 | 0xF1 => Instr.iSBC
  | 0x38 => Instr.iSEC
  | 0xF8 => Instr.iSED
  | 0x78 => Instr.iSEI
  | 0x85 | 0x95 | 0x8D | 0x9D | 0x99 | 0x81 | 0x91 => Instr.iSTA
  | 0x86 | 0x96 | 0x8E => Instr.iSTX
  | 0x84 | 0x94 | 0x8C => Instr.iSTY
  | 0xAA => Instr.iTAX
  | 0xA8 => Instr.iTAY
  | 0xBA => Instr.iTSX
  | 0x8A => Instr.iTXA
  | 0x9A => Instr.iTXS
  | 0x98 => Instr.iTYA
  | 0x04 | 0x44 | 0x64 | 0x14 | 0x34 | 0x54 | 0x74 | 0xD4 | 0xF4 | 0x0C | 0x1C
  | 0x3C | 0x5C | 0x7C | 0xDC | 0xFC => Instr.iIGN
  | 0x1A | 0x3A | 0x5A | 0x7A | 0xDA | 0xFA => Instr.iNOP2
  | 0x80 | 0x82 | 0x89 | 0xC2 | 0xE2 => Instr.iSKB
  | 0xA7 | 0xB7 | 0xAF | 0xBF | 0xA3 | 0xB3 => Instr.iLAX
  | 0x87 | 0x97 | 0x8F | 0x83 => Instr.iSAX
  | 0xEB => Instr.iSBC
  | 0xC7 | 0xD7 | 0xCF | 0xDF | 0xDB | 0xD3 | 0xC3 => Instr.iDCP
  | 0xE7 | 0xF7 | 0xEF | 0xFF | 0xFB | 0xE3 | 0xF3 => Instr.iISB
  | 0x07 | 0x17 | 0x0F | 0x1F | 0x1B | 0x03 | 0x13 => Instr.iSLO
  | 0x27 | 0x37 | 0x2F | 0x3F | 0x3B | 0x33 | 0x23 => Instr.iRLA
  | 0x47 | 0x57 | 0x4F | 0x5F | 0x5B | 0x43 | 0x53 => Instr.iSRE
  | 0x67 | 0x77 | 0x6F | 0x7F | 0x7B | 0x63 | 0x73 => Instr.iRRA
  | 0xCB => Instr.iAXS
  | 0x6B => Instr.iARR
  | 0x0B | 0x2B => Instr.iANC
  | 0x4B => Instr.iALR
  | 0xAB => Instr.iLXA
  | 0x8B => Instr.iXAA
  | 0xBB => Instr.iLAS
  | 0x9B => Instr.iTAS
  | 0x93 => Instr.iAHXindY
  | 0x9F => Instr.iAHXabsY
  | 0x9E => Instr.iSHX
  | 0x9C => Instr.iSHY
  | _ => Instr.iFREEZE

/-- Wrap a continuing (non-`BRK`) handler result. -/
def contOk (r : CPUState × Mem) : CPUState × Mem × Bool := (r.1, r.2, false)

/-- The body of each arm of the `match code` in `CPU::run_with_callback`.
The third component of the result is `true` exactly for `BRK`, which
returns from the run loop. -/
def runInstr (i : Instr) (mode : Mode) (s : CPUState) (m : Mem) :
    Option (CPUState × Mem × Bool) :=
  match i with
  | Instr.iADC => (adc s m mode).map contOk
  | Instr.iAND => (andA s m mode).map contOk
  | Instr.iASLa => some (aslA s, m, false)
  | Instr.iASLm => (aslM s m mode).map fun r => (r.2.1, r.2.2, false)
  | Instr.iBCC => some (branch s m (s.status &&& 0b00000001 = 0), m, false)
  | Instr.iBCS => some (branch s m (s.status &&& 0b00000001 ≠ 0), m, false)
  | Instr.iBEQ => some (branch s m (s.status &&& 0b00000010 ≠ 0), m, false)
  | Instr.iBIT => (bit s m mode).map fun s1 => (s1, m, false)
  | Instr.iBMI => some (branch s m (s.status &&& 0b10000000 ≠ 0), m, false)
  | Instr.iBNE => some (branch s m (s.status &&& 0b00000010 = 0), m, false)
  | Instr.iBPL => some (branch s m (s.status &&& 0b10000000 = 0), m, false)
  | Instr.iBRK => some (s, m, true)
  | Instr.iBVC => some (branch s m (s.status &&& 0b01000000 = 0), m, false)
  | Instr.iBVS => some (branch s m (s.status &&& 0b01000000 ≠ 0), m, false)
  | Instr.iCLC => some (clc s, m, false)
  | Instr.iCLD => some (cld s, m, false)
  | Instr.iCLI => some (cli s, m, false)
  | Instr.iCLV => some (clv s, m, false)
  | Instr.iCMP => (cmp s m mode s.regA).map contOk
  | Instr.iCPX => (cmp s m mode s.regX).map contOk
  | Instr.iCPY => (cmp s m mode s.regY).map contOk
  | Instr.iDEC => (dec s m mode).map contOk
  | Instr.iDEX => some (dex s, m, false)
  | Instr.iDEY => some (dey s, m, false)
  | Instr.iEOR => (eor s m mode).map contOk
  | Instr.iINC => (inc s m mode).map fun r => (r.2.1, r.2.2, false)
  | Instr.iINX => some (inx s, m, false)
  | Instr.iINY => some (iny s, m, false)
  | Instr.iJSR => (jsr s m).map contOk
  | Instr.iJMPabs => (jmpAbsolute s m).map fun s1 => (s1, m, false)
  | Instr.iJMPind => (jmpIndirect s m).map fun s1 => (s1, m, false)
  | Instr.iLDA => (lda s m mode).map contOk
  | Instr.iLDX => (ldx s m mode).map contOk
  | Instr.iLDY => (ldy s m mode).map contOk
  | Instr.iLSRa => some (lsrA s, m, false)
  | Instr.iLSRm => (lsrM s m mode).map fun r => (r.2.1, r.2.2, false)
  | Instr.iNOP => some (s, m, false)
  | Instr.iORA => (ora s m mode).map contOk
  | Instr.iPHA => some (contOk (pha s m))
  | Instr.iPHP => some (contOk (php s m))
  | Instr.iPLA => some (pla s m, m, false)
  | Instr.iPLP => some (plp s m, m, false)
  | Instr.iROLa => some (rolA s, m, false)
  | Instr.iROLm => (rolM s m mode).map fun r => (r.2.1, r.2.2, false)
  | Instr.iRORa => some (rorA s, m, false)
  | Instr.iRORm => (rorM s m mode).map fun r => (r.2.1, r.2.2, false)
  | Instr.iRTI => some (rti s m, m, false)
  | Instr.iRTS => (rts s m).map fun s1 => (s1, m, false)
  | Instr.iSBC => (sbc s m mode).map contOk
  | Instr.iSEC => some (sec s, m, false)
  | Instr.iSED => some (sed s, m, false)
  | Instr.iSEI => some (sei s, m, false)
  | Instr.iSTA => (sta s m mode).map contOk
  | Instr.iSTX => (stx s m mode).map contOk
  | Instr.iSTY => (sty s m mode).map contOk
  | Instr.iTAX => some (tax s, m, false)
  | Instr.iTAY => some (tay s, m, false)
  | Instr.iTSX => some (tsx s, m, false)
  | Instr.iTXA => some (txa s, m, false)
  | Instr.iTXS => some (txs s, m, false)
  | Instr.iTYA => some (tya s, m, false)
  | Instr.iIGN => (ignNop s m mode).map contOk
  | Instr.iFREEZE => some (s, m, false)
  | Instr.iNOP2 => some (s, m, false)
  | Instr.iSKB => some (s, m, false)
  | Instr.iLAX => (lax s m mode).map contOk
  | Instr.iSAX => (sax s m mode).map contOk
  | Instr.iDCP => (dcpExec s m mode).map contOk
  | Instr.iISB => (unofficialIsb s m mode).map contOk
  | Instr.iSLO => (unofficialSlo s m mode).map contOk
  | Instr.iRLA => (unofficialRla s m mode).map contOk
  | Instr.iSRE => (unofficialSre s m mode).map contOk
  | Instr.iRRA => (unofficialRra s m mode).map contOk
  | Instr.iAXS => (axs s m mode).map contOk
  | Instr.iARR => (arr s m mode).map contOk
  | Instr.iANC => (anc s m mode).map contOk
  | Instr.iALR => (alr s m mode).map contOk
  | Instr.iLXA => (lda s m mode).map fun r => (tax r.1, r.2, false)
  | Instr.iXAA => (xaa s m mode).map contOk
  | Instr.iLAS => (las s m mode).map contOk
  | Instr.iTAS => (tas s m).map contOk
  | Instr.iAHXindY => (ahxIndirectY s m).map contOk
  | Instr.iAHXabsY => (ahxAbsoluteY s m).map contOk
  | Instr.iSHX => (shx s m).map contOk
  | Instr.iSHY => (shy s m).map contOk

/-- One instruction body: the `match code` of `CPU::run_with_callback`,
factored through the instruction alphabet. -/
def execArm (code : Nat) (mode : Mode) (s : CPUState) (m : Mem) :
    Option (CPUState × Mem × Bool) :=
  runInstr (decode code) mode s m

/-- One iteration of `CPU::run_with_callback`: fetch the opcode byte at `pc`;
advance `pc` by the checked increment; execute the arm; unless the
instruction set `pc` itself (or was `BRK`), advance `pc` by the checked
`opcode.len - 1`.  The per-iteration `bus.tick(opcode.cycles)` changes no
CPU-visible state. -/
def execInstr (tbl : OpTable) (s : CPUState) (m : Mem) : Option (CPUState × Mem × Bool) :=
  let code := memRd m s.pc
  if s.pc + 1 ≤ 0xFFFF then
    let s1 := { s with pc := s.pc + 1 }
    let pcState := s1.pc
    let op := tbl code
    (execArm code op.mode s1 m).bind fun r =>
      if r.2.2 then some r
      else if pcState = r.1.pc then
        if 1 ≤ op.len ∧ r.1.pc + (op.len - 1) ≤ 0xFFFF then
          some ({ r.1 with pc := r.1.pc + (op.len - 1) }, r.2.1, false)
        else none
      else some r
  else none

/-- `CPU::reset`: zero the registers, `S := 0xFD`, `P := 0x24`, and reload
`pc` from the (always in-range) reset vector at 0xFFFC. -/
def resetCPU (s : CPUState) (m : Mem) : CPUState :=
  { s with regA := 0, regX := 0, regY := 0, sp := 0xFD, status := 0b00100100,
           pc := (memRd m 0xFFFD <<< 8) ||| memRd m 0xFFFC }


/-- An 8 KiB all-zero CHR-ROM image. -/
def chr0 : List Nat := List.replicate 0x2000 0

/-- A freshly constructed PPU over `chr0` with horizontal mirroring. -/
def ppu0 : NesPPU := NesPPU.new chr0 Mirroring.HORIZONTAL

/-- Place a value in the PPU address register (latch in the reset position). -/
def setPpuAddr (p : NesPPU) (a : Nat) : NesPPU :=
  { p with addr := { value := a, hiPtr := true } }

/-- The PPU obtained from `ppu0` by a `$2007` write of 5 with the address
register at 0x3F00. -/
def p5w : NesPPU := ((setPpuAddr ppu0 0x3F00).writeToData 5).getD ppu0

/-- A concrete bus: zero WRAM, a 16 KiB zero PRG-ROM, `ppu0`, fresh joypad. -/
def bus0 : Bus :=
  { cpuWram := List.replicate 2048 0
    prgRom := List.replicate 0x4000 0
    ppu := ppu0
    cycles := 0
    joypad1 := { strobe := false, buttonIndex := 0, buttonStatus := 0 } }

/-- The all-zero abstract memory. -/
def mZero : Mem := fun _ => 0

/-- A memory holding the NMI vector 0x1234 at 0xFFFA/0xFFFB. -/
def mVec : Mem := fun a => if a = 0xFFFA then 0x34 else if a = 0xFFFB then 0x12 else 0

/-- A memory for the DCP counterexample: the zero-page operand pointer 0x20
at 0x10, the operand byte 2 at 0x20. -/
def mDcp : Mem := fun a => if a = 0x10 then 0x20 else if a = 0x20 then 2 else 0

/-- CPU state for the NMI evaluation: `P = 0xA0` (N and U set, B clear). -/
def sNmi : CPUState :=
  { regA := 0, regX := 0, regY := 0, sp := 0xFD, status := 0xA0, pc := 0x8000 }

/-- CPU state for the DCP counterexample: `A = 0`, carry set (`P = 0x25`),
`pc` pointing at the zero-page operand byte. -/
def sDcp : CPUState :=
  { regA := 0, regX := 0, regY := 0, sp := 0xFD, status := 0x25, pc := 0x10 }

/-- CPU state for the ADC/SBC counterexample: `A = 0xFF`, carry set. -/
def sAdc : CPUState :=
  { regA := 0xFF, regX := 0, regY := 0, sp := 0xFD, status := 0x25, pc := 0 }

/-- CPU states reachable from `reset()` by executing instructions (under any
opcode table and any memory contents, which over-approximates every bus
behaviour), including servicing NMIs between instructions. -/
inductive Reachable : CPUState → Prop where
  | reset (s : CPUState) (m : Mem) : Reachable (resetCPU s m)
  | instr (s s' : CPUState) (tbl : OpTable) (m m' : Mem) (halted : Bool) :
      Reachable s → execInstr tbl s m = some (s', m', halted) → Reachable s'
  | nmi (s s' : CPUState) (m m' : Mem) :
      Reachable s → interrupt s m NMI = some (s', m') → Reachable s'

/-!  ### Helper lemmas: status bit 5 (U) through the flag operations  -/


/-- Bit 5 survives `updateZN`. -/
theorem tb_updateZN {st : Nat} (v : Nat) (h : Nat.testBit st 5 = true) :
    Nat.testBit (updateZN st v) 5 = true := by
  unfold updateZN
  split <;> split <;> simp [Nat.testBit_or, Nat.testBit_and, h] <;> decide

theorem pushStack_status (s : CPUState) (m : Mem) (v : Nat) :
    (pushStack s m v).1.status = s.status := rfl

theorem popStack_status (s : CPUState) (m : Mem) :
    (popStack s m).1.status = s.status := rfl

theorem pushStackU16_status (s : CPUState) (m : Mem) (v : Nat) :
    (pushStackU16 s m v).1.status = s.status := rfl

theorem popStackU16_status (s : CPUState) (m : Mem) :
    (popStackU16 s m).1.status = s.status := rfl

theorem branch_status (s : CPUState) (m : Mem) (c : Bool) :
    (branch s m c).status = s.status := by
  unfold branch; split <;> rfl

theorem aslA_U {s : CPUState} (h : Nat.testBit s.status 5 = true) :
    Nat.testBit (aslA s).status 5 = true := by
  unfold aslA; dsimp only
  apply tb_updateZN
  split <;> simp [Nat.testBit_or, Nat.testBit_and, h] <;> decide

theorem lsrA_U {s : CPUState} (h : Nat.testBit s.status 5 = true) :
    Nat.testBit (lsrA s).status 5 = true := by
  unfold lsrA; dsimp only
  apply tb_updateZN
  split <;> simp [Nat.testBit_or, Nat.testBit_and, h] <;> decide

theorem rolA_U {s : CPUState} (h : Nat.testBit s.status 5 = true) :
    Nat.testBit (rolA s).status 5 = true := by
  unfold rolA; dsimp only
  apply tb_updateZN
  split <;> simp [Nat.testBit_or, Nat.testBit_and, h] <;> decide

theorem rorA_U {s : CPUState} (h : Nat.testBit s.status 5 = true) :
    Nat.testBit (rorA s).status 5 = true := by
  unfold rorA; dsimp only
  apply tb_updateZN
  split <;> simp [Nat.testBit_or, Nat.testBit_and, h] <;> decide

theorem clc_U {s : CPUState} (h : Nat.testBit s.status 5 = true) :
    Nat.testBit (clc s).status 5 = true := by
  unfold clc; simp [Nat.testBit_and, h] <;> decide

theorem cld_U {s : CPUState} (h : Nat.testBit s.status 5 = true) :
    Nat.testBit (cld s).status 5 = true := by
  unfold cld; simp [Nat.testBit_and, h] <;> decide

theorem cli_U {s : CPUState} (h : Nat.testBit s.status 5 = true) :
    Nat.testBit (cli s).status 5 = true := by
  unfold cli; simp [Nat.testBit_and, h] <;> decide

theorem clv_U {s : CPUState} (h : Nat.testBit s.status 5 = true) :
    Nat.testBit (clv s).status 5 = true := by
  unfold clv; simp [Nat.testBit_and, h] <;> decide

theorem sec_U {s : CPUState} (h : Nat.testBit s.status 5 = true) :
    Nat.testBit (sec s).status 5 = true := by
  unfold sec; simp [Nat.testBit_or, h]

theorem sed_U {s : CPUState} (h : Nat.testBit s.status 5 = true) :
    Nat.testBit (sed s).status 5 = true := by
  unfold sed; simp [Nat.testBit_or, h]

theorem sei_U {s : CPUState} (h : Nat.testBit s.status 5 = true) :
    Nat.testBit (sei s).status 5 = true := by
  unfold sei; simp [Nat.testBit_or, h]

theorem dex_U {s : CPUState} (h : Nat.testBit s.status 5 = true) :
    Nat.testBit (dex s).status 5 = true := tb_updateZN _ h

theorem dey_U {s : CPUState} (h : Nat.testBit s.status 5 = true) :
    Nat.testBit (dey s).status 5 = true := tb_updateZN _ h

theorem inx_U {s : CPUState} (h : Nat.testBit s.status 5 = true) :
    Nat.testBit (inx s).status 5 = true := tb_updateZN _ h

theorem iny_U {s : CPUState} (h : Nat.testBit s.status 5 = true) :
    Nat.testBit (iny s).status 5 = true := tb_updateZN _ h

theorem tax_U {s : CPUState} (h : Nat.testBit s.status 5 = true) :
    Nat.testBit (tax s).status 5 = true := tb_updateZN _ h

theorem tay_U {s : CPUState} (h : Nat.testBit s.status 5 = true) :
    Nat.testBit (tay s).status 5 = true := tb_updateZN _ h

theorem tsx_U {s : CPUState} (h : Nat.testBit s.status 5 = true) :
    Nat.testBit (tsx s).status 5 = true := tb_updateZN _ h

theorem txa_U {s : CPUState} (h : Nat.testBit s.status 5 = true) :
    Nat.testBit (txa s).status 5 = true := tb_updateZN _ h

theorem txs_U {s : CPUState} (h : Nat.testBit s.status 5 = true) :
    Nat.testBit (txs s).status 5 = true := h

theorem tya_U {s : CPUState} (h : Nat.testBit s.status 5 = true) :
    Nat.testBit (tya s).status 5 = true := tb_updateZN _ h

theorem pla_U {s : CPUState} (m : Mem) (h : Nat.testBit s.status 5 = true) :
    Nat.testBit (pla s m).status 5 = true := tb_updateZN _ h

theorem plp_U (s : CPUState) (m : Mem) :
    Nat.testBit (plp s m).status 5 = true := by
  unfold plp
  simp [Nat.testBit_or, show Nat.testBit 32 5 = true from by decide]

theorem rti_U (s : CPUState) (m : Mem) :
    Nat.testBit (rti s m).status 5 = true := by
  unfold rti
  simp [popStackU16_status, Nat.testBit_or, show Nat.testBit 32 5 = true from by decide]



theorem adc_U {s : CPUState} {m : Mem} {mode : Mode} {r : CPUState × Mem}
    (hU : Nat.testBit s.status 5 = true) (h : adc s m mode = some r) :
    Nat.testBit r.1.status 5 = true := by
  unfold adc at h
  rcases Option.map_eq_some'.1 h with ⟨p, hp, rfl⟩
  dsimp only
  apply tb_updateZN
  split <;> split <;> simp [Nat.testBit_or, Nat.testBit_and, hU] <;> decide

theorem sbc_U {s : CPUState} {m : Mem} {mode : Mode} {r : CPUState × Mem}
    (hU : Nat.testBit s.status 5 = true) (h : sbc s m mode = some r) :
    Nat.testBit r.1.status 5 = true := by
  unfold sbc at h
  rcases Option.map_eq_some'.1 h with ⟨p, hp, rfl⟩
  dsimp only
  apply tb_updateZN
  split <;> split <;> simp [Nat.testBit_or, Nat.testBit_and, hU] <;> decide

theorem andA_U {s : CPUState} {m : Mem} {mode : Mode} {r : CPUState × Mem}
    (hU : Nat.testBit s.status 5 = true) (h : andA s m mode = some r) :
    Nat.testBit r.1.status 5 = true := by
  unfold andA at h
  rcases Option.map_eq_some'.1 h with ⟨p, hp, rfl⟩
  exact tb_updateZN _ hU

theorem eor_U {s : CPUState} {m : Mem} {mode : Mode} {r : CPUState × Mem}
    (hU : Nat.testBit s.status 5 = true) (h : eor s m mode = some r) :
    Nat.testBit r.1.status 5 = true := by
  unfold eor at h
  rcases Option.map_eq_some'.1 h with ⟨p, hp, rfl⟩
  exact tb_updateZN _ hU

theorem ora_U {s : CPUState} {m : Mem} {mode : Mode} {r : CPUState × Mem}
    (hU : Nat.testBit s.status 5 = true) (h : ora s m mode = some r) :
    Nat.testBit r.1.status 5 = true := by
  unfold ora at h
  rcases Option.map_eq_some'.1 h with ⟨p, hp, rfl⟩
  exact tb_updateZN _ hU

theorem lda_U {s : CPUState} {m : Mem} {mode : Mode} {r : CPUState × Mem}
    (hU : Nat.testBit s.status 5 = true) (h : lda s m mode = some r) :
    Nat.testBit r.1.status 5 = true := by
  unfold lda at h
  rcases Option.map_eq_some'.1 h with ⟨p, hp, rfl⟩
  exact tb_updateZN _ hU

theorem ldx_U {s : CPUState} {m : Mem} {mode : Mode} {r : CPUState × Mem}
    (hU : Nat.testBit s.status 5 = true) (h : ldx s m mode = some r) :
    Nat.testBit r.1.status 5 = true := by
  unfold ldx at h
  rcases Option.map_eq_some'.1 h with ⟨p, hp, rfl⟩
  exact tb_updateZN _ hU

theorem ldy_U {s : CPUState} {m : Mem} {mode : Mode} {r : CPUState × Mem}
    (hU : Nat.testBit s.status 5 = true) (h : ldy s m mode = some r) :
    Nat.testBit r.1.status 5 = true := by
  unfold ldy at h
  rcases Option.map_eq_some'.1 h with ⟨p, hp, rfl⟩
  exact tb_updateZN _ hU

theorem cmp_U {s : CPUState} {m : Mem} {mode : Mode} {rv : Nat} {r : CPUState × Mem}
    (hU : Nat.testBit s.status 5 = true) (h : cmp s m mode rv = some r) :
    Nat.testBit r.1.status 5 = true := by
  unfold cmp at h
  rcases Option.map_eq_some'.1 h with ⟨p, hp, rfl⟩
  dsimp only
  apply tb_updateZN
  split <;> simp [Nat.testBit_or, Nat.testBit_and, hU] <;> decide

theorem dec_U {s : CPUState} {m : Mem} {mode : Mode} {r : CPUState × Mem}
    (hU : Nat.testBit s.status 5 = true) (h : dec s m mode = some r) :
    Nat.testBit r.1.status 5 = true := by
  unfold dec at h
  rcases Option.map_eq_some'.1 h with ⟨p, hp, rfl⟩
  exact tb_updateZN _ hU

theorem inc_U {s : CPUState} {m : Mem} {mode : Mode} {r : Nat × CPUState × Mem}
    (hU : Nat.testBit s.status 5 = true) (h : inc s m mode = some r) :
    Nat.testBit r.2.1.status 5 = true := by
  unfold inc at h
  rcases Option.map_eq_some'.1 h with ⟨p, hp, rfl⟩
  exact tb_updateZN _ hU

theorem aslM_U {s : CPUState} {m : Mem} {mode : Mode} {r : Nat × CPUState × Mem}
    (hU : Nat.testBit s.status 5 = true) (h : aslM s m mode = some r) :
    Nat.testBit r.2.1.status 5 = true := by
  unfold aslM at h
  rcases Option.map_eq_some'.1 h with ⟨p, hp, rfl⟩
  dsimp only
  apply tb_updateZN
  split <;> simp [Nat.testBit_or, Nat.testBit_and, hU] <;> decide

theorem lsrM_U {s : CPUState} {m : Mem} {mode : Mode} {r : Nat × CPUState × Mem}
    (hU : Nat.testBit s.status 5 = true) (h : lsrM s m mode = some r) :
    Nat.testBit r.2.1.status 5 = true := by
  unfold lsrM at h
  rcases Option.map_eq_some'.1 h with ⟨p, hp, rfl⟩
  dsimp only
  apply tb_updateZN
  split <;> simp [Nat.testBit_or, Nat.testBit_and, hU] <;> decide

theorem rolM_U {s : CPUState} {m : Mem} {mode : Mode} {r : Nat × CPUState × Mem}
    (hU : Nat.testBit s.status 5 = true) (h : rolM s m mode = some r) :
    Nat.testBit r.2.1.status 5 = true := by
  unfold rolM at h
  rcases Option.map_eq_some'.1 h with ⟨p, hp, rfl⟩
  dsimp only
  apply tb_updateZN
  split <;> simp [Nat.testBit_or, Nat.testBit_and, hU] <;> decide

theorem rorM_U {s : CPUState} {m : Mem} {mode : Mode} {r : Nat × CPUState × Mem}
    (hU : Nat.testBit s.status 5 = true) (h : rorM s m mode = some r) :
    Nat.testBit r.2.1.status 5 = true := by
  unfold rorM at h
  rcases Option.map_eq_some'.1 h with ⟨p, hp, rfl⟩
  dsimp only
  apply tb_updateZN
  split <;> simp [Nat.testBit_or, Nat.testBit_and, hU] <;> decide

theorem bit_U {s : CPUState} {m : Mem} {mode : Mode} {r : CPUState}
    (hU : Nat.testBit s.status 5 = true) (h : bit s m mode = some r) :
    Nat.testBit r.status 5 = true := by
  unfold bit at h
  rcases Option.map_eq_some'.1 h with ⟨p, hp, rfl⟩
  dsimp only
  split <;> split <;> split <;> simp [Nat.testBit_or, Nat.testBit_and, hU] <;> decide



theorem tb5_updateZN (st v : Nat) :
    Nat.testBit (updateZN st v) 5 = Nat.testBit st 5 := by
  unfold updateZN
  split <;> split <;> cases h : Nat.testBit st 5 <;>
    simp [Nat.testBit_or, Nat.testBit_and, h] <;> decide



theorem sta_U {s : CPUState} {m : Mem} {mode : Mode} {r : CPUState × Mem}
    (hU : Nat.testBit s.status 5 = true) (h : sta s m mode = some r) :
    Nat.testBit r.1.status 5 = true := by
  unfold sta at h
  rcases Option.map_eq_some'.1 h with ⟨p, hp, rfl⟩
  exact hU

theorem stx_U {s : CPUState} {m : Mem} {mode : Mode} {r : CPUState × Mem}
    (hU : Nat.testBit s.status 5 = true) (h : stx s m mode = some r) :
    Nat.testBit r.1.status 5 = true := by
  unfold stx at h
  rcases Option.map_eq_some'.1 h with ⟨p, hp, rfl⟩
  exact hU

theorem sty_U {s : CPUState} {m : Mem} {mode : Mode} {r : CPUState × Mem}
    (hU : Nat.testBit s.status 5 = true) (h : sty s m mode = some r) :
    Nat.testBit r.1.status 5 = true := by
  unfold sty at h
  rcases Option.map_eq_some'.1 h with ⟨p, hp, rfl⟩
  exact hU

theorem ignNop_U {s : CPUState} {m : Mem} {mode : Mode} {r : CPUState × Mem}
    (hU : Nat.testBit s.status 5 = true) (h : ignNop s m mode = some r) :
    Nat.testBit r.1.status 5 = true := by
  unfold ignNop at h
  rcases Option.map_eq_some'.1 h with ⟨p, hp, rfl⟩
  exact hU

theorem lax_U {s : CPUState} {m : Mem} {mode : Mode} {r : CPUState × Mem}
    (hU : Nat.testBit s.status 5 = true) (h : lax s m mode = some r) :
    Nat.testBit r.1.status 5 = true := by
  unfold lax at h
  rcases Option.map_eq_some'.1 h with ⟨p, hp, rfl⟩
  exact tb_updateZN _ hU

theorem sax_U {s : CPUState} {m : Mem} {mode : Mode} {r : CPUState × Mem}
    (hU : Nat.testBit s.status 5 = true) (h : sax s m mode = some r) :
    Nat.testBit r.1.status 5 = true := by
  unfold sax at h
  rcases Option.map_eq_some'.1 h with ⟨p, hp, rfl⟩
  exact hU

theorem dcpExec_U {s : CPUState} {m : Mem} {mode : Mode} {r : CPUState × Mem}
    (hU : Nat.testBit s.status 5 = true) (h : dcpExec s m mode = some r) :
    Nat.testBit r.1.status 5 = true := by
  unfold dcpExec at h
  rcases Option.map_eq_some'.1 h with ⟨p, hp, rfl⟩
  dsimp only
  apply tb_updateZN
  split <;> simp [Nat.testBit_or, Nat.testBit_and, hU] <;> decide

theorem axs_U {s : CPUState} {m : Mem} {mode : Mode} {r : CPUState × Mem}
    (hU : Nat.testBit s.status 5 = true) (h : axs s m mode = some r) :
    Nat.testBit r.1.status 5 = true := by
  unfold axs at h
  rcases Option.map_eq_some'.1 h with ⟨p, hp, rfl⟩
  dsimp only
  apply tb_updateZN
  split <;> simp [Nat.testBit_or, Nat.testBit_and, hU] <;> decide

theorem unofficialIsb_U {s : CPUState} {m : Mem} {mode : Mode} {r : CPUState × Mem}
    (hU : Nat.testBit s.status 5 = true) (h : unofficialIsb s m mode = some r) :
    Nat.testBit r.1.status 5 = true := by
  unfold unofficialIsb inc at h
  rcases Option.map_eq_some'.1 h with ⟨q, hq, rfl⟩
  rcases Option.map_eq_some'.1 hq with ⟨p, hp, rfl⟩
  dsimp only
  simp only [tb5_updateZN]
  split_ifs <;> simp [Nat.testBit_or, Nat.testBit_and, tb5_updateZN, hU] <;> decide

theorem unofficialSlo_U {s : CPUState} {m : Mem} {mode : Mode} {r : CPUState × Mem}
    (hU : Nat.testBit s.status 5 = true) (h : unofficialSlo s m mode = some r) :
    Nat.testBit r.1.status 5 = true := by
  unfold unofficialSlo aslM at h
  rcases Option.map_eq_some'.1 h with ⟨q, hq, rfl⟩
  rcases Option.map_eq_some'.1 hq with ⟨p, hp, rfl⟩
  dsimp only
  apply tb_updateZN
  apply tb_updateZN
  split <;> simp [Nat.testBit_or, Nat.testBit_and, hU] <;> decide

theorem unofficialRla_U {s : CPUState} {m : Mem} {mode : Mode} {r : CPUState × Mem}
    (hU : Nat.testBit s.status 5 = true) (h : unofficialRla s m mode = some r) :
    Nat.testBit r.1.status 5 = true := by
  unfold unofficialRla rolM at h
  rcases Option.map_eq_some'.1 h with ⟨q, hq, rfl⟩
  rcases Option.map_eq_some'.1 hq with ⟨p, hp, rfl⟩
  dsimp only
  apply tb_updateZN
  apply tb_updateZN
  split <;> simp [Nat.testBit_or, Nat.testBit_and, hU] <;> decide

theorem unofficialSre_U {s : CPUState} {m : Mem} {mode : Mode} {r : CPUState × Mem}
    (hU : Nat.testBit s.status 5 = true) (h : unofficialSre s m mode = some r) :
    Nat.testBit r.1.status 5 = true := by
  unfold unofficialSre lsrM at h
  rcases Option.map_eq_some'.1 h with ⟨q, hq, rfl⟩
  rcases Option.map_eq_some'.1 hq with ⟨p, hp, rfl⟩
  dsimp only
  apply tb_updateZN
  apply tb_updateZN
  split <;> simp [Nat.testBit_or, Nat.testBit_and, hU] <;> decide

theorem unofficialRra_U {s : CPUState} {m : Mem} {mode : Mode} {r : CPUState × Mem}
    (hU : Nat.testBit s.status 5 = true) (h : unofficialRra s m mode = some r) :
    Nat.testBit r.1.status 5 = true := by
  unfold unofficialRra rorM at h
  rcases Option.map_eq_some'.1 h with ⟨q, hq, rfl⟩
  rcases Option.map_eq_some'.1 hq with ⟨p, hp, rfl⟩
  dsimp only
  simp only [tb5_updateZN]
  split_ifs <;> simp [Nat.testBit_or, Nat.testBit_and, tb5_updateZN, hU] <;> decide




theorem arr_U {s : CPUState} {m : Mem} {mode : Mode} {r : CPUState × Mem}
    (hU : Nat.testBit s.status 5 = true) (h : arr s m mode = some r) :
    Nat.testBit r.1.status 5 = true := by
  unfold arr rorA at h
  rcases Option.map_eq_some'.1 h with ⟨p, hp, rfl⟩
  dsimp only
  simp only [tb5_updateZN]
  split_ifs <;> simp [Nat.testBit_or, Nat.testBit_and, tb5_updateZN, hU] <;> decide

theorem anc_U {s : CPUState} {m : Mem} {mode : Mode} {r : CPUState × Mem}
    (hU : Nat.testBit s.status 5 = true) (h : anc s m mode = some r) :
    Nat.testBit r.1.status 5 = true := by
  unfold anc at h
  rcases Option.map_eq_some'.1 h with ⟨p, hp, rfl⟩
  dsimp only
  split_ifs <;> simp [Nat.testBit_or, Nat.testBit_and, tb5_updateZN, hU] <;> decide

theorem alr_U {s : CPUState} {m : Mem} {mode : Mode} {r : CPUState × Mem}
    (hU : Nat.testBit s.status 5 = true) (h : alr s m mode = some r) :
    Nat.testBit r.1.status 5 = true := by
  unfold alr lsrA at h
  rcases Option.map_eq_some'.1 h with ⟨p, hp, rfl⟩
  dsimp only
  simp only [tb5_updateZN]
  split_ifs <;> simp [Nat.testBit_or, Nat.testBit_and, tb5_updateZN, hU] <;> decide

theorem xaa_U {s : CPUState} {m : Mem} {mode : Mode} {r : CPUState × Mem}
    (hU : Nat.testBit s.status 5 = true) (h : xaa s m mode = some r) :
    Nat.testBit r.1.status 5 = true := by
  unfold xaa at h
  rcases Option.map_eq_some'.1 h with ⟨p, hp, rfl⟩
  exact tb_updateZN _ (tb_updateZN _ hU)

theorem las_U {s : CPUState} {m : Mem} {mode : Mode} {r : CPUState × Mem}
    (hU : Nat.testBit s.status 5 = true) (h : las s m mode = some r) :
    Nat.testBit r.1.status 5 = true := by
  unfold las at h
  rcases Option.map_eq_some'.1 h with ⟨p, hp, rfl⟩
  exact tb_updateZN _ hU

theorem tas_U {s : CPUState} {m : Mem} {r : CPUState × Mem}
    (hU : Nat.testBit s.status 5 = true) (h : tas s m = some r) :
    Nat.testBit r.1.status 5 = true := by
  unfold tas at h
  rcases Option.bind_eq_some.1 h with ⟨base, hb, hf⟩
  split at hf
  · dsimp only at hf
    split at hf
    · rw [Option.some_inj] at hf
      subst hf
      exact hU
    · exact absurd hf (by simp)
  · exact absurd hf (by simp)

theorem ahxIndirectY_U {s : CPUState} {m : Mem} {r : CPUState × Mem}
    (hU : Nat.testBit s.status 5 = true) (h : ahxIndirectY s m = some r) :
    Nat.testBit r.1.status 5 = true := by
  unfold ahxIndirectY at h
  rcases Option.bind_eq_some.1 h with ⟨base, hb, hf⟩
  split at hf
  · rw [Option.some_inj] at hf
    subst hf
    exact hU
  · exact absurd hf (by simp)

theorem ahxAbsoluteY_U {s : CPUState} {m : Mem} {r : CPUState × Mem}
    (hU : Nat.testBit s.status 5 = true) (h : ahxAbsoluteY s m = some r) :
    Nat.testBit r.1.status 5 = true := by
  unfold ahxAbsoluteY at h
  rcases Option.bind_eq_some.1 h with ⟨base, hb, hf⟩
  split at hf
  · rw [Option.some_inj] at hf
    subst hf
    exact hU
  · exact absurd hf (by simp)

theorem shx_U {s : CPUState} {m : Mem} {r : CPUState × Mem}
    (hU : Nat.testBit s.status 5 = true) (h : shx s m = some r) :
    Nat.testBit r.1.status 5 = true := by
  unfold shx at h
  rcases Option.bind_eq_some.1 h with ⟨base, hb, hf⟩
  split at hf
  · dsimp only at hf
    split at hf
    · rw [Option.some_inj] at hf
      subst hf
      exact hU
    · exact absurd hf (by simp)
  · exact absurd hf (by simp)

theorem shy_U {s : CPUState} {m : Mem} {r : CPUState × Mem}
    (hU : Nat.testBit s.status 5 = true) (h : shy s m = some r) :
    Nat.testBit r.1.status 5 = true := by
  unfold shy at h
  rcases Option.bind_eq_some.1 h with ⟨base, hb, hf⟩
  split at hf
  · dsimp only at hf
    split at hf
    · rw [Option.some_inj] at hf
      subst hf
      exact hU
    · exact absurd hf (by simp)
  · exact absurd hf (by simp)

theorem jsr_U {s : CPUState} {m : Mem} {r : CPUState × Mem}
    (hU : Nat.testBit s.status 5 = true) (h : jsr s m = some r) :
    Nat.testBit r.1.status 5 = true := by
  unfold jsr at h
  split at h
  · rcases Option.map_eq_some'.1 h with ⟨a, ha, rfl⟩
    exact hU
  · exact absurd h (by simp)

theorem rts_U {s : CPUState} {m : Mem} {s1 : CPUState}
    (hU : Nat.testBit s.status 5 = true) (h : rts s m = some s1) :
    Nat.testBit s1.status 5 = true := by
  unfold rts at h
  dsimp only at h
  split at h
  · rw [Option.some_inj] at h
    subst h
    exact hU
  · exact absurd h (by simp)

theorem jmpAbsolute_U {s : CPUState} {m : Mem} {s1 : CPUState}
    (hU : Nat.testBit s.status 5 = true) (h : jmpAbsolute s m = some s1) :
    Nat.testBit s1.status 5 = true := by
  unfold jmpAbsolute at h
  rcases Option.map_eq_some'.1 h with ⟨a, ha, rfl⟩
  exact hU

theorem jmpIndirect_U {s : CPUState} {m : Mem} {s1 : CPUState}
    (hU : Nat.testBit s.status 5 = true) (h : jmpIndirect s m = some s1) :
    Nat.testBit s1.status 5 = true := by
  unfold jmpIndirect at h
  rcases Option.bind_eq_some.1 h with ⟨a, ha, hf⟩
  split at hf
  · rw [Option.some_inj] at hf
    subst hf
    exact hU
  · rcases Option.map_eq_some'.1 hf with ⟨ia, hia, rfl⟩
    exact hU

theorem interrupt_U {s : CPUState} {m : Mem} {i : Interrupt} {r : CPUState × Mem}
    (hU : Nat.testBit s.status 5 = true) (h : interrupt s m i = some r) :
    Nat.testBit r.1.status 5 = true := by
  unfold interrupt at h
  rcases Option.map_eq_some'.1 h with ⟨v, hv, rfl⟩
  dsimp only
  split_ifs <;> simp [Nat.testBit_or, pushStack, pushStackU16, hU]


/-!  ### Dispatcher-level preservation of status bit 5  -/


theorem runInstr_U (i : Instr) (mode : Mode) (s : CPUState) (m : Mem)
    (r : CPUState × Mem × Bool) (hU : Nat.testBit s.status 5 = true)
    (h : runInstr i mode s m = some r) : Nat.testBit r.1.status 5 = true := by
  cases i <;> simp only [runInstr] at h
  case iADC =>
    rcases Option.map_eq_some'.1 h with ⟨q, hq, rfl⟩
    exact adc_U hU hq
  case iAND =>
    rcases Option.map_eq_some'.1 h with ⟨q, hq, rfl⟩
    exact andA_U hU hq
  case iCMP =>
    rcases Option.map_eq_some'.1 h with ⟨q, hq, rfl⟩
    exact cmp_U hU hq
  case iCPX =>
    rcases Option.map_eq_some'.1 h with ⟨q, hq, rfl⟩
    exact cmp_U hU hq
  case iCPY =>
    rcases Option.map_eq_some'.1 h with ⟨q, hq, rfl⟩
    exact cmp_U hU hq
  case iDEC =>
    rcases Option.map_eq_some'.1 h with ⟨q, hq, rfl⟩
    exact dec_U hU hq
  case iEOR =>
    rcases Option.map_eq_some'.1 h with ⟨q, hq, rfl⟩
    exact eor_U hU hq
  case iJSR =>
    rcases Option.map_eq_some'.1 h with ⟨q, hq, rfl⟩
    exact jsr_U hU hq
  case iLDA =>
    rcases Option.map_eq_some'.1 h with ⟨q, hq, rfl⟩
    exact lda_U hU hq
  case iLDX =>
    rcases Option.map_eq_some'.1 h with ⟨q, hq, rfl⟩
    exact ldx_U hU hq
  case iLDY =>
    rcases Option.map_eq_some'.1 h with ⟨q, hq, rfl⟩
    exact ldy_U hU hq
  case iORA =>
    rcases Option.map_eq_some'.1 h with ⟨q, hq, rfl⟩
    exact ora_U hU hq
  case iSBC =>
    rcases Option.map_eq_some'.1 h with ⟨q, hq, rfl⟩
    exact sbc_U hU hq
  case iSTA =>
    rcases Option.map_eq_some'.1 h with ⟨q, hq, rfl⟩
    exact sta_U hU hq
  case iSTX =>
    rcases Option.map_eq_some'.1 h with ⟨q, hq, rfl⟩
    exact stx_U hU hq
  case iSTY =>
    rcases Option.map_eq_some'.1 h with ⟨q, hq, rfl⟩
    exact sty_U hU hq
  case iIGN =>
    rcases Option.map_eq_some'.1 h with ⟨q, hq, rfl⟩
    exact ignNop_U hU hq
  case iLAX =>
    rcases Option.map_eq_some'.1 h with ⟨q, hq, rfl⟩
    exact lax_U hU hq
  case iSAX =>
    rcases Option.map_eq_some'.1 h with ⟨q, hq, rfl⟩
    exact sax_U hU hq
  case iDCP =>
    rcases Option.map_eq_some'.1 h with ⟨q, hq, rfl⟩
    exact dcpExec_U hU hq
  case iISB =>
    rcases Option.map_eq_some'.1 h with ⟨q, hq, rfl⟩
    exact unofficialIsb_U hU hq
  case iSLO =>
    rcases Option.map_eq_some'.1 h with ⟨q, hq, rfl⟩
    exact unofficialSlo_U hU hq
  case iRLA =>
    rcases Option.map_eq_some'.1 h with ⟨q, hq, rfl⟩
    exact unofficialRla_U hU hq
  case iSRE =>
    rcases Option.map_eq_some'.1 h with ⟨q, hq, rfl⟩
    exact unofficialSre_U hU hq
  case iRRA =>
    rcases Option.map_eq_some'.1 h with ⟨q, hq, rfl⟩
    exact unofficialRra_U hU hq
  case iAXS =>
    rcases Option.map_eq_some'.1 h with ⟨q, hq, rfl⟩
    exact axs_U hU hq
  case iARR =>
    rcases Option.map_eq_some'.1 h with ⟨q, hq, rfl⟩
    exact arr_U hU hq
  case iANC =>
    rcases Option.map_eq_some'.1 h with ⟨q, hq, rfl⟩
    exact anc_U hU hq
  case iALR =>
    rcases Option.map_eq_some'.1 h with ⟨q, hq, rfl⟩
    exact alr_U hU hq
  case iXAA =>
    rcases Option.map_eq_some'.1 h with ⟨q, hq, rfl⟩
    exact xaa_U hU hq
  case iLAS =>
    rcases Option.map_eq_some'.1 h with ⟨q, hq, rfl⟩
    exact las_U hU hq
  case iTAS =>
    rcases Option.map_eq_some'.1 h with ⟨q, hq, rfl⟩
    exact tas_U hU hq
  case iAHXindY =>
    rcases Option.map_eq_some'.1 h with ⟨q, hq, rfl⟩
    exact ahxIndirectY_U hU hq
  case iAHXabsY =>
    rcases Option.map_eq_some'.1 h with ⟨q, hq, rfl⟩
    exact ahxAbsoluteY_U hU hq
  case iSHX =>
    rcases Option.map_eq_some'.1 h with ⟨q, hq, rfl⟩
    exact shx_U hU hq
  case iSHY =>
    rcases Option.map_eq_some'.1 h with ⟨q, hq, rfl⟩
    exact shy_U hU hq
  case iASLm =>
    rcases Option.map_eq_some'.1 h with ⟨q, hq, rfl⟩
    exact aslM_U hU hq
  case iINC =>
    rcases Option.map_eq_some'.1 h with ⟨q, hq, rfl⟩
    exact inc_U hU hq
  case iLSRm =>
    rcases Option.map_eq_some'.1 h with ⟨q, hq, rfl⟩
    exact lsrM_U hU hq
  case iROLm =>
    rcases Option.map_eq_some'.1 h with ⟨q, hq, rfl⟩
    exact rolM_U hU hq
  case iRORm =>
    rcases Option.map_eq_some'.1 h with ⟨q, hq, rfl⟩
    exact rorM_U hU hq
  case iBIT =>
    rcases Option.map_eq_some'.1 h with ⟨q, hq, rfl⟩
    exact bit_U hU hq
  case iJMPabs =>
    rcases Option.map_eq_some'.1 h with ⟨q, hq, rfl⟩
    exact jmpAbsolute_U hU hq
  case iJMPind =>
    rcases Option.map_eq_some'.1 h with ⟨q, hq, rfl⟩
    exact jmpIndirect_U hU hq
  case iRTS =>
    rcases Option.map_eq_some'.1 h with ⟨q, hq, rfl⟩
    exact rts_U hU hq
  case iASLa =>
    rw [Option.some_inj] at h
    subst h
    exact aslA_U hU
  case iCLC =>
    rw [Option.some_inj] at h
    subst h
    exact clc_U hU
  case iCLD =>
    rw [Option.some_inj] at h
    subst h
    exact cld_U hU
  case iCLI =>
    rw [Option.some_inj] at h
    subst h
    exact cli_U hU
  case iCLV =>
    rw [Option.some_inj] at h
    subst h
    exact clv_U hU
  case iDEX =>
    rw [Option.some_inj] at h
    subst h
    exact dex_U hU
  case iDEY =>
    rw [Option.some_inj] at h
    subst h
    exact dey_U hU
  case iINX =>
    rw [Option.some_inj] at h
    subst h
    exact inx_U hU
  case iINY =>
    rw [Option.some_inj] at h
    subst h
    exact iny_U hU
  case iLSRa =>
    rw [Option.some_inj] at h
    subst h
    exact lsrA_U hU
  case iROLa =>
    rw [Option.some_inj] at h
    subst h
    exact rolA_U hU
  case iRORa =>
    rw [Option.some_inj] at h
    subst h
    exact rorA_U hU
  case iSEC =>
    rw [Option.some_inj] at h
    subst h
    exact sec_U hU
  case iSED =>
    rw [Option.some_inj] at h
    subst h
    exact sed_U hU
  case iSEI =>
    rw [Option.some_inj] at h
    subst h
    exact sei_U hU
  case iTAX =>
    rw [Option.some_inj] at h
    subst h
    exact tax_U hU
  case iTAY =>
    rw [Option.some_inj] at h
    subst h
    exact tay_U hU
  case iTSX =>
    rw [Option.some_inj] at h
    subst h
    exact tsx_U hU
  case iTXA =>
    rw [Option.some_inj] at h
    subst h
    exact txa_U hU
  case iTXS =>
    rw [Option.some_inj] at h
    subst h
    exact txs_U hU
  case iTYA =>
    rw [Option.some_inj] at h
    subst h
    exact tya_U hU
  case iBCC =>
    rw [Option.some_inj] at h
    subst h
    simpa [branch_status] using hU
  case iBCS =>
    rw [Option.some_inj] at h
    subst h
    simpa [branch_status] using hU
  case iBEQ =>
    rw [Option.some_inj] at h
    subst h
    simpa [branch_status] using hU
  case iBMI =>
    rw [Option.some_inj] at h
    subst h
    simpa [branch_status] using hU
  case iBNE =>
    rw [Option.some_inj] at h
    subst h
    simpa [branch_status] using hU
  case iBPL =>
    rw [Option.some_inj] at h
    subst h
    simpa [branch_status] using hU
  case iBVC =>
    rw [Option.some_inj] at h
    subst h
    simpa [branch_status] using hU
  case iBVS =>
    rw [Option.some_inj] at h
    subst h
    simpa [branch_status] using hU
  case iBRK =>
    rw [Option.some_inj] at h
    subst h
    exact hU
  case iNOP =>
    rw [Option.some_inj] at h
    subst h
    exact hU
  case iFREEZE =>
    rw [Option.some_inj] at h
    subst h
    exact hU
  case iNOP2 =>
    rw [Option.some_inj] at h
    subst h
    exact hU
  case iSKB =>
    rw [Option.some_inj] at h
    subst h
    exact hU
  case iPHA =>
    rw [Option.some_inj] at h
    subst h
    exact hU
  case iPHP =>
    rw [Option.some_inj] at h
    subst h
    exact hU
  case iPLA =>
    rw [Option.some_inj] at h
    subst h
    exact pla_U m hU
  case iPLP =>
    rw [Option.some_inj] at h
    subst h
    exact plp_U s m
  case iRTI =>
    rw [Option.some_inj] at h
    subst h
    exact rti_U s m
  case iLXA =>
    rcases Option.map_eq_some'.1 h with ⟨q, hq, rfl⟩
    exact tax_U (lda_U hU hq)

theorem execInstr_U (tbl : OpTable) (s : CPUState) (m : Mem)
    (r : CPUState × Mem × Bool) (hU : Nat.testBit s.status 5 = true)
    (h : execInstr tbl s m = some r) : Nat.testBit r.1.status 5 = true := by
  unfold execInstr at h
  split at h
  · rcases Option.bind_eq_some.1 h with ⟨q, hq, hpost⟩
    unfold execArm at hq
    have hU1 : Nat.testBit ({ s with pc := s.pc + 1 } : CPUState).status 5 = true := hU
    have hq5 : Nat.testBit q.1.status 5 = true := runInstr_U _ _ _ _ _ hU1 hq
    split at hpost
    · rw [Option.some_inj] at hpost
      subst hpost
      exact hq5
    · split at hpost
      · split at hpost
        · rw [Option.some_inj] at hpost
          subst hpost
          exact hq5
        · exact absurd hpost (by simp)
      · rw [Option.some_inj] at hpost
        subst hpost
        exact hq5
  · exact absurd h (by simp)

/-!  ### Bit-level characterisation helpers and CPU claims  -/


theorem nat_or_and_right (a b c : Nat) : (a ||| b) &&& c = (a &&& c) ||| (b &&& c) := by
  apply Nat.eq_of_testBit_eq
  intro i
  simp only [Nat.testBit_and, Nat.testBit_or]
  cases a.testBit i <;> cases b.testBit i <;> cases c.testBit i <;> rfl

theorem tb0_updateZN (st v : Nat) : (updateZN st v).testBit 0 = st.testBit 0 := by
  unfold updateZN
  split <;> split <;>
    simp_all [Nat.testBit_or, Nat.testBit_and, Nat.testBit_zero] <;> omega

theorem tb1_updateZN (st v : Nat) : (updateZN st v).testBit 1 = decide (v % 256 = 0) := by
  unfold updateZN
  split <;> split <;>
    simp_all [Nat.testBit_or, Nat.testBit_and,
      show Nat.testBit 2 1 = true from by decide,
      show Nat.testBit 128 1 = false from by decide,
      show Nat.testBit 127 1 = true from by decide,
      show Nat.testBit 253 1 = false from by decide]

theorem tb7_updateZN (st v : Nat) : (updateZN st v).testBit 7 = decide (v &&& 128 ≠ 0) := by
  unfold updateZN
  split <;> split <;>
    simp_all [Nat.testBit_or, Nat.testBit_and,
      show Nat.testBit 2 7 = false from by decide,
      show Nat.testBit 128 7 = true from by decide,
      show Nat.testBit 127 7 = false from by decide,
      show Nat.testBit 253 7 = true from by decide]

theorem sub8_mod (a b : Nat) : sub8 a b % 256 = sub8 a b := by
  unfold sub8
  omega

theorem getOperandAddress_sameXYpc (s : CPUState) (m : Mem) (mode : Mode) (a st : Nat) :
    getOperandAddress
      { regA := a, regX := s.regX, regY := s.regY, sp := s.sp, status := st, pc := s.pc }
      m mode = getOperandAddress s m mode := by
  cases mode <;> rfl

/-- C6 (amended): DCP writes `M - 1` (wrapping) back to the operand address,
changes no register, sets the carry when `A ≥ M - 1` and *retains* the
previous carry otherwise (the CMP-style clearing is absent), and sets Z and
N from `A - (M - 1)`. -/
theorem claim_C6_amended (s : CPUState) (m : Mem) (mode : Mode) (addr : Nat) (pg : Bool)
    (haddr : getOperandAddress s m mode = some (addr, pg)) :
    ∃ sd md, dcpExec s m mode = some (sd, md) ∧
      md = memWr m addr (sub8 (memRd m addr) 1) ∧
      sd.regA = s.regA ∧ sd.pc = s.pc ∧ sd.regX = s.regX ∧ sd.regY = s.regY ∧ sd.sp = s.sp ∧
      (sd.status.testBit 0 =
        if sub8 (memRd m addr) 1 ≤ s.regA then true else s.status.testBit 0) ∧
      (sd.status.testBit 1 = decide (sub8 s.regA (sub8 (memRd m addr) 1) = 0)) ∧
      (sd.status.testBit 7 = decide (sub8 s.regA (sub8 (memRd m addr) 1) &&& 128 ≠ 0)) := by
  unfold dcpExec
  rw [haddr]
  refine ⟨_, _, rfl, rfl, rfl, rfl, rfl, rfl, rfl, ?_, ?_, ?_⟩
  · rw [tb0_updateZN]
    split
    · simp [Nat.testBit_or]
    · rfl
  · rw [tb1_updateZN, sub8_mod]
  · rw [tb7_updateZN]

/-- C6 (counterexample): at `A = 0`, operand `M = 2` and carry initially set,
DCP leaves the carry set although `A < M - 1`; DEC-then-CMP as the claim
states it would clear the carry. -/
theorem claim_C6_counterexample :
    ((dcpExec sDcp mDcp Mode.zeroPage).map (fun r => r.1.status.testBit 0) = some true) ∧
    sDcp.regA < sub8 (memRd mDcp 0x20) 1 ∧ sDcp.status.testBit 0 = true := by
  refine ⟨?_, by decide, by decide⟩
  decide

theorem and1_or1 (x : Nat) : (x &&& 1) ||| 1 = 1 := by
  have h : x &&& 1 = x % 2 := Nat.and_one_is_mod x
  rcases Nat.mod_two_eq_zero_or_one x with h2 | h2 <;> rw [h, h2] <;> rfl

theorem updZN_and1 (st v : Nat) : updateZN st v &&& 1 = st &&& 1 := by
  have h := tb0_updateZN st v
  simp only [Nat.testBit_zero, decide_eq_decide] at h
  rw [Nat.and_one_is_mod, Nat.and_one_is_mod]
  omega

theorem adcStatus_and1 (P : Prop) [Decidable P] (x v : Nat) :
    updateZN (if P then x &&& 254 ||| 64 else x &&& 254 &&& 191) v &&& 1 = 0 := by
  rw [updZN_and1]
  split
  · rw [nat_or_and_right, Nat.and_assoc]
    simp
  · rw [Nat.and_assoc, Nat.and_assoc]
    simp

theorem sbcStatus_and1 (P : Prop) [Decidable P] (x v : Nat) :
    updateZN (if P then (x ||| 1) ||| 64 else (x ||| 1) &&& 191) v &&& 1 = 1 := by
  rw [updZN_and1]
  split
  · rw [nat_or_and_right, nat_or_and_right]
    simp [and1_or1]
    rcases Nat.mod_two_eq_zero_or_one x with h2 | h2 <;> rw [h2] <;> rfl
  · rw [Nat.and_assoc]
    rw [show (191 : Nat) &&& 1 = 1 from rfl]
    rw [nat_or_and_right]
    simp [and1_or1]
    rcases Nat.mod_two_eq_zero_or_one x with h2 | h2 <;> rw [h2] <;> rfl

/-- C7 (amended): with carry initially set and no carry out of the ADC
(`A + M + 1 ≤ 0xFF`), ADC followed by SBC of the same operand restores A and
the carry; in the carry-out case A is incremented instead, and the V flag is
not restored in general. -/
theorem claim_C7_amended (s : CPUState) (m : Mem) (mode : Mode) (addr : Nat) (pg : Bool)
    (haddr : getOperandAddress s m mode = some (addr, pg))
    (hA : s.regA < 256)
    (hC : s.status &&& 1 = 1)
    (hnc : s.regA + memRd m addr + 1 ≤ 0xFF) :
    ∃ s1, adc s m mode = some (s1, m) ∧
      ((sbc s1 m mode).map fun r => (r.1.regA, r.1.status &&& 1)) =
        some (s.regA, s.status &&& 1) := by
  have hM : memRd m addr < 256 := Nat.mod_lt _ (by omega)
  unfold adc
  rw [haddr]
  dsimp only [Option.map_some']
  rw [hC]
  rw [if_neg (show ¬ (s.regA + memRd m addr + 1 > 0xFF) by omega)]
  rw [Nat.mod_eq_of_lt (show s.regA + memRd m addr + 1 < 256 by omega)]
  refine ⟨_, rfl, ?_⟩
  unfold sbc
  rw [getOperandAddress_sameXYpc s m mode, haddr]
  dsimp only [Option.map_some']
  simp only [adcStatus_and1]
  rw [if_pos (show s.regA + memRd m addr + 1 + (255 - memRd m addr) + 0 > 0xFF by omega)]
  rw [show (s.regA + memRd m addr + 1 + (255 - memRd m addr) + 0) % 256 = s.regA by omega]
  rw [sbcStatus_and1]


/-- C7 (counterexample): at `A = 0xFF`, `M = 0`, carry set, ADC then SBC of
the same operand yields `A = 0`, not the initial `0xFF`. -/
theorem claim_C7_counterexample :
    ((adc sAdc mZero Mode.immediate).bind fun r => sbc r.1 r.2 Mode.immediate).map
        (fun r => r.1.regA) = some 0 ∧
    sAdc.regA = 0xFF ∧ sAdc.status &&& 1 = 1 ∧ (0 : Nat) ≠ 0xFF := by
  refine ⟨by decide, by decide, by decide, by decide⟩

/-- C6 (witness): the amended DCP theorem applied at a concrete state. -/
theorem claim_C6_witness :
    getOperandAddress sDcp mDcp Mode.zeroPage = some (0x20, false) ∧
    (∃ sd md, dcpExec sDcp mDcp Mode.zeroPage = some (sd, md) ∧
      md = memWr mDcp 0x20 (sub8 (memRd mDcp 0x20) 1) ∧
      sd.regA = sDcp.regA ∧ sd.pc = sDcp.pc ∧ sd.regX = sDcp.regX ∧ sd.regY = sDcp.regY ∧
      sd.sp = sDcp.sp ∧
      (sd.status.testBit 0 =
        if sub8 (memRd mDcp 0x20) 1 ≤ sDcp.regA then true else sDcp.status.testBit 0) ∧
      (sd.status.testBit 1 = decide (sub8 sDcp.regA (sub8 (memRd mDcp 0x20) 1) = 0)) ∧
      (sd.status.testBit 7 =
        decide (sub8 sDcp.regA (sub8 (memRd mDcp 0x20) 1) &&& 128 ≠ 0))) :=
  ⟨by decide, claim_C6_amended sDcp mDcp Mode.zeroPage 0x20 false (by decide)⟩

/-- C7 (witness): the amended ADC/SBC theorem applied at `A = 3`, `M = 0`. -/
theorem claim_C7_witness :
    (getOperandAddress { sAdc with regA := 3 } mZero Mode.immediate = some (0, false) ∧
      ({ sAdc with regA := 3 } : CPUState).regA < 256 ∧
      ({ sAdc with regA := 3 } : CPUState).status &&& 1 = 1 ∧
      ({ sAdc with regA := 3 } : CPUState).regA + memRd mZero 0 + 1 ≤ 0xFF) ∧
    (∃ s1, adc { sAdc with regA := 3 } mZero Mode.immediate = some (s1, mZero) ∧
      ((sbc s1 mZero Mode.immediate).map fun r => (r.1.regA, r.1.status &&& 1)) =
        some (({ sAdc with regA := 3 } : CPUState).regA,
              ({ sAdc with regA := 3 } : CPUState).status &&& 1)) :=
  ⟨⟨by decide, by decide, by decide, by decide⟩,
    claim_C7_amended { sAdc with regA := 3 } mZero Mode.immediate 0 false (by decide)
      (by decide) (by decide) (by decide)⟩

/-- C10: the default `mem_read_u16` succeeds exactly on `pos < 0xFFFF` (the
high-byte address `pos + 1` is a checked `u16` addition), and on success
reads little-endian from `pos` and `pos + 1`. -/
theorem claim_C10_memReadU16 (m : Mem) (pos : Nat) (hpos : pos < 0x10000) :
    ((memReadU16 m pos).isSome ↔ pos < 0xFFFF) ∧
    (pos < 0xFFFF →
      memReadU16 m pos = some ((memRd m (pos + 1) <<< 8) ||| memRd m pos)) := by
  unfold memReadU16
  constructor
  · split <;> simp <;> omega
  · intro h
    rw [if_pos (by omega)]

/-- C10 (witness): at the boundary `pos = 0xFFFF` the read is an error. -/
theorem claim_C10_witness :
    (0xFFFF : Nat) < 0x10000 ∧
    (((memReadU16 mZero 0xFFFF).isSome ↔ (0xFFFF : Nat) < 0xFFFF) ∧
      ((0xFFFF : Nat) < 0xFFFF →
        memReadU16 mZero 0xFFFF = some ((memRd mZero 0x10000 <<< 8) ||| memRd mZero 0xFFFF))) :=
  ⟨by decide, claim_C10_memReadU16 mZero 0xFFFF (by decide)⟩

/-- C8: bit 5 (U) of the status register is 1 in every CPU state reachable
from `reset()` by executing instructions and servicing NMIs. -/
theorem claim_C8_status_U_invariant (s : CPUState) (h : Reachable s) :
    Nat.testBit s.status 5 = true := by
  induction h with
  | reset s0 m0 =>
      show Nat.testBit 0b00100100 5 = true
      decide
  | instr s0 s' tbl m m' halted hr hstep ih =>
      exact execInstr_U tbl s0 m (s', m', halted) ih hstep
  | nmi s0 s' m m' hr hstep ih =>
      exact interrupt_U ih hstep

/-- C8 (witness): the freshly reset CPU is reachable and satisfies the
invariant. -/
theorem claim_C8_witness :
    Reachable (resetCPU { regA := 0, regX := 0, regY := 0, sp := 0, status := 0, pc := 0 } mZero) ∧
    Nat.testBit
      (resetCPU { regA := 0, regX := 0, regY := 0, sp := 0, status := 0, pc := 0 } mZero).status
      5 = true :=
  ⟨Reachable.reset _ _,
    claim_C8_status_U_invariant _ (Reachable.reset _ _)⟩


/-!  ### PPU timing and data-port claims  -/


theorem tick_fst_cycles (p : NesPPU) (c : Nat) :
    ((p.tick c).1).cycles = if p.cycles + c > 341 then p.cycles + c - 341 else p.cycles + c := by
  unfold NesPPU.tick
  dsimp only
  split_ifs <;> rfl

theorem tick_fst_scanline (p : NesPPU) (c : Nat) :
    ((p.tick c).1).scanline =
      if p.cycles + c > 341 then
        (if p.scanline + 1 ≥ 262 then 0 else p.scanline + 1)
      else p.scanline := by
  unfold NesPPU.tick
  dsimp only
  split_ifs <;> rfl

theorem tick_snd (p : NesPPU) (c : Nat) :
    (p.tick c).2 = true ↔ (p.cycles + c > 341 ∧ p.scanline + 1 ≥ 262) := by
  unfold NesPPU.tick
  dsimp only
  split_ifs <;> simp_all

theorem tickFromNew_state (chr : List Nat) (mir : Mirroring) :
    ∀ n, 1 ≤ n →
      (tickFromNew chr mir n).1.cycles = (n - 1) % 341 + 1 ∧
      (tickFromNew chr mir n).1.scanline = ((n - 1) / 341) % 262 := by
  intro n
  induction n with
  | zero => omega
  | succ n ih =>
    intro _
    rcases Nat.eq_zero_or_pos n with rfl | hn
    · rw [show tickFromNew chr mir 1 = (tickFromNew chr mir 0).1.tick 1 from rfl]
      rw [tick_fst_cycles, tick_fst_scanline]
      simp [tickFromNew, NesPPU.new]
    · obtain ⟨h1, h2⟩ := ih hn
      constructor
      · rw [show tickFromNew chr mir (n + 1) = (tickFromNew chr mir n).1.tick 1 from rfl]
        rw [tick_fst_cycles, h1]
        split_ifs <;> omega
      · rw [show tickFromNew chr mir (n + 1) = (tickFromNew chr mir n).1.tick 1 from rfl]
        rw [tick_fst_scanline, h1, h2]
        split_ifs <;> omega

/-- C2 (amended): ticking a freshly constructed PPU one dot at a time, the
frame-complete signal returns `true` exactly on ticks `n = 89343 + 89342 k`:
the first frame completes on tick 89343 and every 89342 ticks thereafter
(the dot counter wraps by 341 only once it *exceeds 341*). -/
theorem claim_C2_frame_period (chr : List Nat) (mir : Mirroring) (n : Nat) :
    (tickFromNew chr mir n).2 = true ↔ (89343 ≤ n ∧ (n - 89343) % 89342 = 0) := by
  cases n with
  | zero => simp [tickFromNew]
  | succ n =>
    rw [show tickFromNew chr mir (n + 1) = (tickFromNew chr mir n).1.tick 1 from rfl]
    rw [tick_snd]
    rcases Nat.eq_zero_or_pos n with rfl | hn
    · simp [tickFromNew, NesPPU.new]
    · obtain ⟨h1, h2⟩ := tickFromNew_state chr mir n hn
      rw [h1, h2]
      omega

/-- C2 (counterexample): after ticking a fresh PPU by 255 and then 86 dots,
the dot counter holds 341 - it exceeds 340 yet has not wrapped (the code
wraps only above 341), and no scanline advance or frame signal occurred;
the claim's wrap-at-exceeding-340 rule is violated. -/
theorem claim_C2_counterexample :
    ((ppu0.tick 255).1.tick 86).1.cycles = 341 ∧
    340 < ((ppu0.tick 255).1.tick 86).1.cycles ∧
    ((ppu0.tick 255).1.tick 86).1.scanline = 0 ∧
    ((ppu0.tick 255).1.tick 86).2 = false := by
  refine ⟨by decide, by decide, by decide, by decide⟩

theorem mirrorVramAddr_lt (p : NesPPU) (addr : Nat)
    (hm : p.mirroring = Mirroring.HORIZONTAL ∨ p.mirroring = Mirroring.VERTICAL) :
    p.mirrorVramAddr addr < 2048 := by
  unfold NesPPU.mirrorVramAddr
  have h1 : addr &&& 0b10111111111111 ≤ 0b10111111111111 := Nat.and_le_right
  dsimp only
  rcases hm with hm | hm <;> rw [hm] <;> dsimp only <;> split_ifs <;> omega

/-- C3 (amended): for addresses 0x0000-0x2FFF (reads at 0x3000-0x3EFF panic)
in a PPU with the standard 8 KiB CHR-ROM, 2 KiB VRAM and horizontal or
vertical mirroring, a `$2007` read succeeds, returns the previous buffer,
refills the buffer from the storage decoded at the address, and advances
the address register by the control-selected increment. -/
theorem claim_C3_buffered_read (p : NesPPU) (a : Nat)
    (ha : p.addr.value = a) (hrange : a ≤ 0x2FFF)
    (hchr : p.chrRom.length = 0x2000) (hvram : p.vram.length = 2048)
    (hm : p.mirroring = Mirroring.HORIZONTAL ∨ p.mirroring = Mirroring.VERTICAL) :
    ∃ p', p.readData = some (p.internalDataBuf, p') ∧
      p'.internalDataBuf =
        (if a ≤ 0x1FFF then p.chrRom.getD a 0 else p.vram.getD (p.mirrorVramAddr a) 0) ∧
      p'.addr.value = (a + p.ctrl.vramAddrIncrement) &&& 0x3FFF ∧
      (p.ctrl.vramAddrIncrement = 1 ∨ p.ctrl.vramAddrIncrement = 32) ∧
      p'.chrRom = p.chrRom ∧ p'.vram = p.vram ∧ p'.paletteTable = p.paletteTable := by
  subst ha
  have hinc : p.ctrl.vramAddrIncrement = 1 ∨ p.ctrl.vramAddrIncrement = 32 := by
    unfold ControlRegister.vramAddrIncrement
    split <;> simp
  unfold NesPPU.readData
  dsimp only [AddrRegister.get]
  by_cases hc : p.addr.value ≤ 0x1FFF
  · rw [if_pos hc]
    have hbound : p.addr.value < p.chrRom.length := by omega
    rw [List.getElem?_eq_getElem hbound]
    refine ⟨_, rfl, ?_, rfl, hinc, rfl, rfl, rfl⟩
    rw [if_pos hc, List.getD_eq_getElem _ _ hbound]
  · rw [if_neg hc, if_pos hrange]
    have hbound : p.mirrorVramAddr p.addr.value < p.vram.length := by
      rw [hvram]; exact mirrorVramAddr_lt p _ hm
    rw [List.getElem?_eq_getElem hbound]
    refine ⟨_, rfl, ?_, rfl, hinc, rfl, rfl, rfl⟩
    rw [if_neg hc, List.getD_eq_getElem _ _ hbound]

/-- C3 (counterexample): with the address register at 0x3000 - inside the
claim's 0x0000-0x3EFF range - the `$2007` read panics (`none`). -/
theorem claim_C3_counterexample :
    (setPpuAddr ppu0 0x3000).addr.value = 0x3000 ∧ (0x3000 : Nat) ≤ 0x3EFF ∧
    (setPpuAddr ppu0 0x3000).readData = none := by
  refine ⟨rfl, by decide, ?_⟩
  rfl

/-- C3 (witness): the amended theorem applied with the address register at
0x2005 on the fresh PPU. -/
theorem claim_C3_witness :
    ((setPpuAddr ppu0 0x2005).addr.value = 0x2005 ∧ (0x2005 : Nat) ≤ 0x2FFF ∧
      (setPpuAddr ppu0 0x2005).chrRom.length = 0x2000 ∧
      (setPpuAddr ppu0 0x2005).vram.length = 2048 ∧
      (setPpuAddr ppu0 0x2005).mirroring = Mirroring.HORIZONTAL) ∧
    (∃ p', (setPpuAddr ppu0 0x2005).readData =
        some ((setPpuAddr ppu0 0x2005).internalDataBuf, p') ∧
      p'.internalDataBuf =
        (if (0x2005 : Nat) ≤ 0x1FFF then (setPpuAddr ppu0 0x2005).chrRom.getD 0x2005 0
         else (setPpuAddr ppu0 0x2005).vram.getD
                ((setPpuAddr ppu0 0x2005).mirrorVramAddr 0x2005) 0) ∧
      p'.addr.value = (0x2005 + (setPpuAddr ppu0 0x2005).ctrl.vramAddrIncrement) &&& 0x3FFF ∧
      ((setPpuAddr ppu0 0x2005).ctrl.vramAddrIncrement = 1 ∨
        (setPpuAddr ppu0 0x2005).ctrl.vramAddrIncrement = 32) ∧
      p'.chrRom = (setPpuAddr ppu0 0x2005).chrRom ∧
      p'.vram = (setPpuAddr ppu0 0x2005).vram ∧
      p'.paletteTable = (setPpuAddr ppu0 0x2005).paletteTable) :=
  ⟨⟨rfl, by decide, show chr0.length = 0x2000 by unfold chr0; exact List.length_replicate _ _,
     show (List.replicate 2048 0).length = 2048 from List.length_replicate _ _, rfl⟩,
   claim_C3_buffered_read _ 0x2005 rfl (by decide)
     (show chr0.length = 0x2000 by unfold chr0; exact List.length_replicate _ _)
     (show (List.replicate 2048 0).length = 2048 from List.length_replicate _ _)
     (Or.inl rfl)⟩

/-- C9: a `$2007` write with the address register in CHR-ROM space
(0x0000-0x1FFF) is dropped - CHR-ROM, VRAM and the palette are unchanged -
yet the address register still advances by the control-selected increment,
exactly as a successful write would. -/
theorem claim_C9_dropped_write_increments (p : NesPPU) (v : Nat)
    (h : p.addr.value ≤ 0x1FFF) :
    ∃ p', p.writeToData v = some p' ∧
      p'.chrRom = p.chrRom ∧ p'.vram = p.vram ∧ p'.paletteTable = p.paletteTable ∧
      p'.addr.value = (p.addr.value + p.ctrl.vramAddrIncrement) &&& 0x3FFF ∧
      (p.ctrl.vramAddrIncrement = if p.ctrl.bits &&& 0b00000100 = 0 then 1 else 32) := by
  unfold NesPPU.writeToData
  dsimp only [AddrRegister.get]
  rw [if_pos h]
  exact ⟨_, rfl, rfl, rfl, rfl, rfl, rfl⟩

/-- C9 (witness): the theorem applied with the address register at 0x0100. -/
theorem claim_C9_witness :
    (setPpuAddr ppu0 0x0100).addr.value ≤ 0x1FFF ∧
    (∃ p', (setPpuAddr ppu0 0x0100).writeToData 7 = some p' ∧
      p'.chrRom = (setPpuAddr ppu0 0x0100).chrRom ∧
      p'.vram = (setPpuAddr ppu0 0x0100).vram ∧
      p'.paletteTable = (setPpuAddr ppu0 0x0100).paletteTable ∧
      p'.addr.value =
        ((setPpuAddr ppu0 0x0100).addr.value +
          (setPpuAddr ppu0 0x0100).ctrl.vramAddrIncrement) &&& 0x3FFF ∧
      ((setPpuAddr ppu0 0x0100).ctrl.vramAddrIncrement =
        if (setPpuAddr ppu0 0x0100).ctrl.bits &&& 0b00000100 = 0 then 1 else 32)) :=
  ⟨by decide, claim_C9_dropped_write_increments _ 7 (by decide)⟩

/-- C5 (amended): the palette aliasing holds for `$2007` *writes* - a write
with the address register at an alias stores into the same palette cell as
the write at its base address, so the palette tables agree - while `$2007`
*reads* do not remap: a read at the alias returns `palette_table[m - 0x3F00]`
itself. -/
theorem claim_C5_palette_alias_writes (p : NesPPU) (v am ab : Nat)
    (hpair : (am, ab) = (0x3F10, 0x3F00) ∨ (am, ab) = (0x3F14, 0x3F04) ∨
             (am, ab) = (0x3F18, 0x3F08) ∨ (am, ab) = (0x3F1C, 0x3F0C))
    (hpal : p.paletteTable.length = 32) :
    ((setPpuAddr p am).writeToData v).map NesPPU.paletteTable =
      ((setPpuAddr p ab).writeToData v).map NesPPU.paletteTable ∧
    ((setPpuAddr p am).readData).map Prod.fst =
      some (p.paletteTable.getD (am - 0x3F00) 0) := by
  have hget : ∀ i, i < 32 → p.paletteTable[i]? = some (p.paletteTable.getD i 0) := by
    intro i hi
    have hb : i < p.paletteTable.length := by omega
    rw [List.getElem?_eq_getElem hb, List.getD_eq_getElem _ _ hb]
  rcases hpair with h | h | h | h <;>
    (rw [Prod.mk.injEq] at h; obtain ⟨rfl, rfl⟩ := h) <;> refine ⟨?_, ?_⟩
  · simp only [NesPPU.writeToData, setPpuAddr, AddrRegister.get]
    norm_num [hpal]
    rfl
  · simp only [NesPPU.readData, setPpuAddr, AddrRegister.get]
    norm_num
    rw [hget 16 (by omega)]
    rfl
  · simp only [NesPPU.writeToData, setPpuAddr, AddrRegister.get]
    norm_num [hpal]
    rfl
  · simp only [NesPPU.readData, setPpuAddr, AddrRegister.get]
    norm_num
    rw [hget 20 (by omega)]
    rfl
  · simp only [NesPPU.writeToData, setPpuAddr, AddrRegister.get]
    norm_num [hpal]
    rfl
  · simp only [NesPPU.readData, setPpuAddr, AddrRegister.get]
    norm_num
    rw [hget 24 (by omega)]
    rfl
  · simp only [NesPPU.writeToData, setPpuAddr, AddrRegister.get]
    norm_num [hpal]
    rfl
  · simp only [NesPPU.readData, setPpuAddr, AddrRegister.get]
    norm_num
    rw [hget 28 (by omega)]
    rfl

/-- C5 (counterexample): write 5 through `$2007` at 0x3F00, then read back
through `$2007`: the read at the alias 0x3F10 returns 0 while the read at
0x3F00 returns 5 - reads do not see the claimed aliasing. -/
theorem claim_C5_counterexample :
    ((setPpuAddr p5w 0x3F10).readData).map Prod.fst = some 0 ∧
    ((setPpuAddr p5w 0x3F00).readData).map Prod.fst = some 5 ∧
    (0 : Nat) ≠ 5 := by
  refine ⟨by decide, by decide, by decide⟩

/-- C5 (witness): the amended theorem applied at the pair (0x3F10, 0x3F00)
with value 7 on the fresh PPU. -/
theorem claim_C5_witness :
    (((0x3F10 : Nat), (0x3F00 : Nat)) = (0x3F10, 0x3F00) ∨
      ((0x3F10 : Nat), (0x3F00 : Nat)) = (0x3F14, 0x3F04) ∨
      ((0x3F10 : Nat), (0x3F00 : Nat)) = (0x3F18, 0x3F08) ∨
      ((0x3F10 : Nat), (0x3F00 : Nat)) = (0x3F1C, 0x3F0C)) ∧
    ppu0.paletteTable.length = 32 ∧
    (((setPpuAddr ppu0 0x3F10).writeToData 7).map NesPPU.paletteTable =
        ((setPpuAddr ppu0 0x3F00).writeToData 7).map NesPPU.paletteTable ∧
      ((setPpuAddr ppu0 0x3F10).readData).map Prod.fst =
        some (ppu0.paletteTable.getD (0x3F10 - 0x3F00) 0)) :=
  ⟨Or.inl rfl, show (List.replicate 32 0).length = 32 from List.length_replicate _ _,
   claim_C5_palette_alias_writes ppu0 7 0x3F10 0x3F00 (Or.inl rfl)
     (show (List.replicate 32 0).length = 32 from List.length_replicate _ _)⟩

/-- C4 (amended): reading bus address 0x4014 is a programmer-contract
violation: for every bus state `mem_read(0x4014)` hits the write-only panic
arm (which precedes the `0x4000..=0x4015 => 0` arm) and aborts. -/
theorem claim_C4_read_4014_panics (b : Bus) : Bus.memRead b 0x4014 = none := by
  rw [Bus.memRead]
  simp

/-- C4 (counterexample): at the concrete bus `bus0` the read of 0x4014 is an
error, not the value 0 the claim promises. -/
theorem claim_C4_counterexample :
    Bus.memRead bus0 0x4014 = none ∧ (Bus.memRead bus0 0x4014).isSome = false := by
  constructor
  · rw [Bus.memRead]; simp
  · rw [Bus.memRead]; simp

/-- C1: evaluation of the NMI entry at a concrete state (`P = 0xA0`, so N
and U set, B clear; vector 0x1234 at 0xFFFA).  The high then low bytes of
`pc` are pushed, I is set, `pc` is loaded from the vector - but the pushed
status copy is 0x80: its bit 5 (U) is *cleared*, because both
`b_flag_mask & bit == 1` comparisons in the source are never true (the
masked values are 0 or 32, never 1), so the else branches clear B *and* U.
The spec's `U = 1` is the evident intent of `b_flag_mask = 0b0010_0000`. -/
theorem claim_C1_nmi_eval :
    (interrupt sNmi mVec NMI).isSome = true ∧
    memRd ((interrupt sNmi mVec NMI).getD (sNmi, mVec)).2 0x1FD = 0x80 ∧
    memRd ((interrupt sNmi mVec NMI).getD (sNmi, mVec)).2 0x1FC = 0x00 ∧
    memRd ((interrupt sNmi mVec NMI).getD (sNmi, mVec)).2 0x1FB = 0x80 ∧
    Nat.testBit (memRd ((interrupt sNmi mVec NMI).getD (sNmi, mVec)).2 0x1FB) 5 = false ∧
    Nat.testBit sNmi.status 5 = true ∧
    ((interrupt sNmi mVec NMI).getD (sNmi, mVec)).1.status = 0xA4 ∧
    ((interrupt sNmi mVec NMI).getD (sNmi, mVec)).1.pc = 0x1234 ∧
    ((interrupt sNmi mVec NMI).getD (sNmi, mVec)).1.sp = 0xFA := by
  refine ⟨by decide, by decide, by decide, by decide, by decide, by decide,
    by decide, by decide, by decide⟩

end NesRs
